/-
Verification of the SRT control daemon (src/srt/daemon/daemon.py) against its
natural-language specification.

This file is a shallow embedding of the daemon's data model and operations.
Python floats are modelled as rationals (ℚ), with the IEEE specials of
`float()` and the `OverflowError` of `time.sleep` captured by `PyFloat` and
`pySleep`; the motor-driver collaborator is
abstracted by its capability surface (a bounds-check predicate), the numpy
cosine by an abstract function of the angle in degrees, and the persisted
calibration document by an optional record.  Queues become lists, the logging
list keeps the messages (timestamps dropped), and `time.sleep` calls are
recorded in a `sleeps` trace.  Exceptions are modelled with `Except`, an error
carrying the partially mutated state, mirroring Python semantics where field
assignments made before a raise persist.

Sequential model: each operation is the state transformation performed by the
thread that runs it; busy-wait loops that only poll `rotor_location` (written
by the concurrent rotor thread) mutate nothing in the executing thread and are
modelled as terminating without a state change.
-/

import Mathlib

namespace SRT

/-! ## Character/string helpers (Python `str` operations, ASCII semantics) -/

/-- Python `str.lower` on an ASCII character. -/
def lowerChar (c : Char) : Char :=
  if 'A' ≤ c ∧ c ≤ 'Z' then Char.ofNat (c.toNat + 32) else c

/-- Python `str.lower`. -/
def lowerStr (s : String) : String :=
  String.mk (s.data.map lowerChar)

/-- Split a character list at every occurrence of `c` (Python `str.split(sep)`:
keeps empty chunks, `"" .split " " = [""]`). -/
def splitCharsOn (c : Char) : List Char → List (List Char)
  | [] => [[]]
  | x :: xs =>
    let r := splitCharsOn c xs
    if x = c then [] :: r
    else
      match r with
      | [] => [[x]]
      | y :: ys => (x :: y) :: ys

/-- Python `str.split(sep)` for a one-character separator. -/
def splitStr (c : Char) (s : String) : List String :=
  (splitCharsOn c s.data).map String.mk

/-- Python `str.strip()` (whitespace at both ends). -/
def trimStr (s : String) : String :=
  String.mk (((s.data.dropWhile Char.isWhitespace).reverse.dropWhile Char.isWhitespace).reverse)

/-- Python slicing `s[1:]`. -/
def dropStr (n : ℕ) (s : String) : String :=
  String.mk (s.data.drop n)

/-- Python `s[0]` (total with a default; only used where the source guarantees
the string is non-empty). -/
def frontChar (s : String) : Char :=
  s.data.headD ' '

/-- One fuel-indexed step of Python `str.replace(pat, rep)`. -/
def replaceFuel (pat rep : List Char) : ℕ → List Char → List Char
  | 0, l => l
  | _ + 1, [] => []
  | fuel + 1, x :: xs =>
    if pat.isPrefixOf (x :: xs) then
      rep ++ replaceFuel pat rep fuel (xs.drop (pat.length - 1))
    else
      x :: replaceFuel pat rep fuel xs

/-- Python `str.replace(pat, rep)` (all occurrences, left to right). -/
def replaceStr (s pat rep : String) : String :=
  String.mk (replaceFuel pat.data rep.data s.data.length s.data)

/-- Python `str.endswith(pat)`. -/
def endsWithStr (s pat : String) : Bool :=
  pat.data.isSuffixOf s.data

/-- Python `str.isnumeric()` (ASCII digits). -/
def isNumericStr (s : String) : Bool :=
  decide (s.data ≠ []) && s.data.all Char.isDigit

/-- Digits to a natural number. -/
def digitsToNat (l : List Char) : ℕ :=
  l.foldl (fun a c => a * 10 + (c.toNat - 48)) 0

/-- Parse a non-empty all-digit string. -/
def parseNatStr (s : String) : Option ℕ :=
  if s.data ≠ [] ∧ s.data.all Char.isDigit then some (digitsToNat s.data) else none

/-- A Python float as produced by `float(token)`: an exact rational for the
finite decimal/exponent forms, or one of the IEEE specials the literal
`inf`/`infinity`/`nan` forms denote.  Finite values are kept as exact
rationals rather than rounded doubles: the one place a verified claim
observes a parsed value's magnitude is the `time.sleep` overflow check,
whose threshold (about 9.2e9 seconds) lies far below the double range, so a
decimal form that Python would round or overflow to `inf` (such as `1e400`)
behaves identically there as the exact rational. -/
inductive PyFloat where
  | finite (q : ℚ)
  | inf (neg : Bool)
  | nan
deriving DecidableEq

/-- Projection of a Python float into the ℚ-valued model fields.  IEEE
infinities and NaN have no rational counterpart; in the daemon they can only
reach the stored frequency/sample-rate fields and the pointing-target
arguments, where no verified claim observes the numeric value and where
Python raises nothing, so they are projected to 0. -/
def PyFloat.storedRat : PyFloat → ℚ
  | .finite q => q
  | .inf _ => 0
  | .nan => 0

/-- Python float multiplication by a positive rational constant
(`float(x) * pow(10, 6)`). -/
def PyFloat.mulQ (f : PyFloat) (c : ℚ) : PyFloat :=
  match f with
  | .finite q => .finite (q * c)
  | .inf b => .inf b
  | .nan => .nan

/-- Python numeric-literal underscores are valid only between two digits
(`1_000`); removes them, or `none` when one is misplaced.  `prev` is the
character preceding the current position. -/
def stripUnderscoresAux (prev : Char) : List Char → Option (List Char)
  | [] => some []
  | c :: rest =>
    if c = '_' then
      match rest with
      | [] => none
      | r :: _ =>
        if prev.isDigit ∧ r.isDigit then stripUnderscoresAux prev rest else none
    else
      (stripUnderscoresAux c rest).map (fun t => c :: t)

/-- See `stripUnderscoresAux`; a leading underscore is always invalid. -/
def stripUnderscores (l : List Char) : Option (List Char) :=
  stripUnderscoresAux ' ' l

/-- `[sign]digits`, as used in the exponent of a float literal. -/
def parseSignedNat (s : String) : Option (Bool × ℕ) :=
  let neg := frontChar s = '-'
  let core := if frontChar s = '-' ∨ frontChar s = '+' then dropStr 1 s else s
  (parseNatStr core).map (fun n => (neg, n))

/-- The decimal-mantissa forms accepted by Python `float()`:
`digits[.digits]`, `.digits`, `digits.`, as an exact rational. -/
def parseMantissa (s : String) : Option ℚ :=
  match splitStr '.' s with
  | [d] => (parseNatStr d).map (fun n => (n : ℚ))
  | [ip, fp] =>
    if ip.data.all Char.isDigit ∧ fp.data.all Char.isDigit ∧ (ip.data ≠ [] ∨ fp.data ≠ []) then
      some ((digitsToNat ip.data : ℚ) + (digitsToNat fp.data : ℚ) / 10 ^ fp.data.length)
    else none
  | _ => none

/-- Python `float(token)`: optional surrounding whitespace and sign, then
either the case-insensitive keywords `inf`/`infinity`/`nan`, or a mantissa
with optional `e`/`E` exponent, with single underscores permitted between
digits.  `none` models the `ValueError` float() raises on anything else. -/
def parsePyFloat (s : String) : Option PyFloat :=
  let t := trimStr s
  let neg := frontChar t = '-'
  let core : String := if frontChar t = '-' ∨ frontChar t = '+' then dropStr 1 t else t
  let lcore := lowerStr core
  if lcore = "inf" ∨ lcore = "infinity" then some (.inf neg)
  else if lcore = "nan" then some .nan
  else
    match stripUnderscores lcore.data with
    | none => none
    | some chars =>
      match splitStr 'e' (String.mk chars) with
      | [m] => (parseMantissa m).map (fun v => .finite (if neg then -v else v))
      | [m, ex] =>
        match parseMantissa m, parseSignedNat ex with
        | some v, some (eneg, en) =>
          let v2 : ℚ := if eneg then v / 10 ^ en else v * 10 ^ en
          some (.finite (if neg then -v2 else v2))
        | _, _ => none
      | _ => none

/-! ## Data model -/

/-- A value placed on the outbound radio parameter queue
(`self.radio_queue.put((name, value))`). -/
inductive RVal where
  | num (q : ℚ)
  | str (s : String)
  | bool (b : Bool)
  | list (l : List ℚ)
deriving DecidableEq

/-- The persisted calibration document `calibration.json`
(`{cal_values: [...], cal_pwr: ...}`, section 6 of the spec). -/
structure CalDoc where
  cal_values : List ℚ
  cal_pwr : ℚ
deriving DecidableEq

/-- Handle of a `RadioSaveRawTask(sample_frequency, save_dir, name)`;
`running` is set by `.start()` and cleared by `.terminate()`. -/
structure RawTask where
  samp_rate : ℚ
  save_dir : String
  name : Option String
  running : Bool
deriving DecidableEq

/-- Handle of a `RadioSaveSpecRadTask(sample_frequency, num_bins, save_dir, name)`. -/
structure SpecTask where
  samp_rate : ℚ
  num_bins : ℕ
  save_dir : String
  name : Option String
deriving DecidableEq

/-- Python exception classes that the daemon's core can raise. -/
inductive PyErr where
  | indexError (msg : String)
  | valueError (msg : String)
  | connectionRefusedError (msg : String)
  | keyError
  | fileNotFoundError
  | overflowError (msg : String)
deriving DecidableEq

/-- External collaborators, fixed for a run: the motor driver's capability
surface `angles_within_bounds`, numpy's cosine (of an angle given in degrees,
i.e. `np.cos(x * np.pi / 180)`), the current content of
`config/calibration.json` (`none` = file absent or task produced none), and
the current UTC time as whole seconds since 1900-01-01 00:00:00. -/
structure Env where
  withinBounds : ℚ → ℚ → Bool
  cosDeg : ℚ → ℚ
  calibration_file : Option CalDoc
  now : ℕ

/-- The daemon's shared mutable state (the `self.*` fields of
`SmallRadioTelescopeDaemon` that the verified claims touch), together with
the observable traces: the outbound radio parameter queue, the error log
(messages of `log_message`), and the trace of completed `sleep` calls. -/
structure DaemonState where
  stow_location : ℚ × ℚ
  cal_location : ℚ × ℚ
  radio_center_frequency : ℚ
  radio_sample_frequency : ℚ
  radio_num_bins : ℕ
  beamwidth : ℚ
  temp_sys : ℚ
  temp_cal : ℚ
  save_dir : String
  cal_values : List ℚ
  cal_power : ℚ
  ephemeris_locations : List (String × (ℚ × ℚ))
  ephemeris_cmd_location : Option String
  rotor_location : ℚ × ℚ
  rotor_destination : ℚ × ℚ
  rotor_offsets : ℚ × ℚ
  rotor_cmd_location : ℚ × ℚ
  radio_queue : List (String × RVal)
  radio_save_raw_task : Option RawTask
  radio_save_spec_task : Option SpecTask
  radio_autostart : Bool
  radio_process_running : Bool
  current_queue_item : String
  command_error_logs : List String
  sleeps : List ℚ
deriving DecidableEq

/-- Result of a state transformation that may raise: an error carries the
state as mutated up to the raise. -/
abbrev PyResult := Except (PyErr × DaemonState) DaemonState

/-! ## Elementary state operations -/

/-- `self.radio_queue.put(p)`. -/
def pushRadio (s : DaemonState) (p : String × RVal) : DaemonState :=
  { s with radio_queue := s.radio_queue ++ [p] }

/-- `self.log_message(m)` (appends to `command_error_logs` and prints). -/
def logMsg (s : DaemonState) (m : String) : DaemonState :=
  { s with command_error_logs := s.command_error_logs ++ [m] }

/-- `sleep(d)` for a literal non-negative duration. -/
def sleepFor (s : DaemonState) (d : ℚ) : DaemonState :=
  { s with sleeps := s.sleeps ++ [d] }

/-- `time.sleep(d)` for a computed duration.  CPython first converts the
float to int64 nanoseconds (`_PyTime_FromSecondsObject`), raising
`ValueError` for NaN and an uncaught `OverflowError` for an infinite or
over-large magnitude (beyond 2^63 ns, about 292 years); only after that
conversion does a negative duration raise `ValueError`. -/
def pySleep (s : DaemonState) (d : PyFloat) : PyResult :=
  match d with
  | .nan => .error (.valueError "Invalid value NaN (not a number)", s)
  | .inf _ => .error (.overflowError "timestamp too large to convert to C _PyTime_t", s)
  | .finite q =>
    if q * 10 ^ 9 > 2 ^ 63 - 1 ∨ q * 10 ^ 9 < -(2 ^ 63) then
      .error (.overflowError "timestamp too large to convert to C _PyTime_t", s)
    else if q < 0 then .error (.valueError "sleep length must be non-negative", s)
    else .ok (sleepFor s q)

/-- `parts[i]`, raising `IndexError` when out of range. -/
def getArg (s : DaemonState) (parts : List String) (i : ℕ) : Except (PyErr × DaemonState) String :=
  match parts.get? i with
  | some v => .ok v
  | none => .error (.indexError "list index out of range", s)

/-- `float(v)`, raising `ValueError` on a malformed literal. -/
def parseFloatE (s : DaemonState) (v : String) : Except (PyErr × DaemonState) PyFloat :=
  match parsePyFloat v with
  | some q => .ok q
  | none => .error (.valueError ("could not convert string to float: " ++ v), s)

/-! ## Pointing operations (daemon.py lines 146-315)

Each arrival busy-wait
`while not azel_within_range(self.rotor_location, self.rotor_cmd_location): sleep(0.1)`
only polls `rotor_location`, which is written by the concurrent rotor thread;
it performs no state change in the executing thread and is modelled as
terminating without effect. -/

/-- `point_at_offset` (lines 255-279): adds the offset to the current
destination, commits offsets and commanded position only when the result is
within motor bounds, otherwise logs the rejection (and touches nothing else:
in particular `ephemeris_cmd_location` is left as it was). -/
def point_at_offset (env : Env) (s : DaemonState) (az_off el_off : ℚ) : DaemonState :=
  let new_rotor_offsets := (az_off, el_off)
  let new_rotor_cmd_location := (s.rotor_destination.1 + az_off, s.rotor_destination.2 + el_off)
  if env.withinBounds new_rotor_cmd_location.1 new_rotor_cmd_location.2 then
    { s with rotor_offsets := new_rotor_offsets,
             rotor_cmd_location := new_rotor_cmd_location }
  else
    logMsg s ("Offset " ++ toString az_off ++ " " ++ toString el_off ++ " Out of Bounds")

/-- `point_at_azel` (lines 228-253): clears tracking, zeroes offsets, announces
the target on the radio queue, and commits destination and commanded position
only when within bounds. -/
def point_at_azel (env : Env) (s : DaemonState) (az el : ℚ) : DaemonState :=
  let s := { s with ephemeris_cmd_location := none, rotor_offsets := ((0 : ℚ), (0 : ℚ)) }
  let s := pushRadio s ("soutrack", RVal.str ("azel_" ++ toString az ++ "_" ++ toString el))
  let new_rotor_cmd_location := (az, el)
  if env.withinBounds new_rotor_cmd_location.1 new_rotor_cmd_location.2 then
    { s with rotor_destination := new_rotor_cmd_location,
             rotor_cmd_location := new_rotor_cmd_location }
  else
    logMsg s ("Object at " ++ toString az ++ " " ++ toString el ++ " Not in Motor Bounds")

/-- `point_at_object` (lines 203-226): zeroes offsets, announces the object,
looks it up in the ephemeris table (Python raises `KeyError` when absent —
the dispatcher only calls this for known objects), and either commits and
tracks it, or logs and clears tracking. -/
def point_at_object (env : Env) (s : DaemonState) (object_id : String) : PyResult :=
  let s := { s with rotor_offsets := ((0 : ℚ), (0 : ℚ)) }
  let s := pushRadio s ("soutrack", RVal.str object_id)
  match List.lookup object_id s.ephemeris_locations with
  | none => .error (.keyError, s)
  | some new_rotor_cmd_location =>
    if env.withinBounds new_rotor_cmd_location.1 new_rotor_cmd_location.2 then
      .ok { s with ephemeris_cmd_location := some object_id,
                   rotor_destination := new_rotor_cmd_location,
                   rotor_cmd_location := new_rotor_cmd_location }
    else
      .ok { (logMsg s ("Object " ++ object_id ++ " Not in Motor Bounds")) with
              ephemeris_cmd_location := none }

/-- `stow` (lines 281-294): unconditionally commits the configured stow
location (note: no call to `angles_within_bounds` anywhere in the body). -/
def stow (s : DaemonState) : DaemonState :=
  let s := { s with ephemeris_cmd_location := none }
  let s := pushRadio s ("soutrack", RVal.str "at_stow")
  { s with rotor_offsets := ((0 : ℚ), (0 : ℚ)),
           rotor_destination := s.stow_location,
           rotor_cmd_location := s.stow_location }

/-- Common head of `n_point_scan` and `beam_switch`: suspend tracking and
announce the object on the radio queue. -/
def scanSetup (s : DaemonState) (object_id : String) : DaemonState :=
  pushRadio { s with ephemeris_cmd_location := none } ("soutrack", RVal.str object_id)

/-- The offset pair computed by iteration `scan` of `n_point_scan`
(lines 161-167): `i = scan // 5 - 2`, `j = scan % 5 - 2`,
`el_dif = i * beamwidth * 0.5`,
`az_dif = j * beamwidth * 0.5 / cos(radians(el + el_dif))`. -/
def nPointCell (env : Env) (beamwidth el : ℚ) (scan : ℕ) : ℚ × ℚ :=
  let i : ℚ := ((scan / 5 : ℕ) : ℚ) - 2
  let j : ℚ := ((scan % 5 : ℕ) : ℚ) - 2
  let el_dif := i * beamwidth * (1 / 2)
  let az_dif := j * beamwidth * (1 / 2) / env.cosDeg (el + el_dif)
  (az_dif, el_dif)

/-- One iteration of the `for scan in range(25)` loop of `n_point_scan`
(lines 160-171): re-reads the object's position, computes the grid offset,
moves when the object itself is within bounds, and dwells 5 seconds. -/
def nPointIter (env : Env) (object_id : String) (scan : ℕ) (s : DaemonState) : PyResult :=
  match List.lookup object_id s.ephemeris_locations with
  | none => .error (.keyError, s)
  | some new_rotor_destination =>
    let cell := nPointCell env s.beamwidth new_rotor_destination.2 scan
    let s :=
      if env.withinBounds new_rotor_destination.1 new_rotor_destination.2 then
        point_at_offset env { s with rotor_destination := new_rotor_destination } cell.1 cell.2
      else s
    .ok (sleepFor s 5)

/-- Sequencing of fallible loop iterations (Python `for` over indices where
the body may raise). -/
def foldSteps (f : ℕ → DaemonState → PyResult) : List ℕ → DaemonState → PyResult
  | [], s => .ok s
  | k :: ks, s =>
    match f k s with
    | .ok s2 => foldSteps f ks s2
    | .error e => .error e

/-- `n_point_scan` (lines 146-173). -/
def n_point_scan (env : Env) (s : DaemonState) (object_id : String) : PyResult :=
  match foldSteps (nPointIter env object_id) (List.range 25) (scanSetup s object_id) with
  | .error e => .error e
  | .ok s2 =>
    .ok { s2 with rotor_offsets := ((0 : ℚ), (0 : ℚ)),
                  ephemeris_cmd_location := some object_id }

/-- One leg of the `for j in range(0, 3)` loop of `beam_switch`
(lines 190-198): emit the leg label, compute the azimuth-only offset
`(j % 3 - 1) * beamwidth / cos(radians(el))`, move when the object is within
bounds, dwell 5 seconds. -/
def beamLeg (env : Env) (dest : ℚ × ℚ) (s : DaemonState) (j : ℕ) : DaemonState :=
  let s := pushRadio s ("beam_switch", RVal.num ((j : ℚ) + 1))
  let az_dif := (((j % 3 : ℕ) : ℚ) - 1) * s.beamwidth / env.cosDeg dest.2
  let s :=
    if env.withinBounds dest.1 dest.2 then
      point_at_offset env { s with rotor_destination := dest } az_dif 0
    else s
  sleepFor s 5

/-- `beam_switch` (lines 175-201). -/
def beam_switch (env : Env) (s : DaemonState) (object_id : String) : PyResult :=
  let s := scanSetup s object_id
  match List.lookup object_id s.ephemeris_locations with
  | none => .error (.keyError, s)
  | some new_rotor_destination =>
    let s := (List.range 3).foldl (beamLeg env new_rotor_destination) s
    let s := { s with rotor_offsets := ((0 : ℚ), (0 : ℚ)) }
    let s := pushRadio s ("beam_switch", RVal.num 0)
    .ok { s with ephemeris_cmd_location := some object_id }

/-- `calibrate` (lines 296-315): runs the calibration collaborator (external,
bounded by a 30 s join), then re-reads `calibration.json`.  `open` raises
`FileNotFoundError` when the file does not exist — nothing in `calibrate` or
in the command loop catches that class.  With a present (well-formed) document
the new profile is stored and both fields are queued. -/
def calibrate (env : Env) (s : DaemonState) : PyResult :=
  match env.calibration_file with
  | none => .error (.fileNotFoundError, s)
  | some cal_data =>
    let s := { s with cal_values := cal_data.cal_values, cal_power := cal_data.cal_pwr }
    let s := pushRadio s ("cal_pwr", RVal.num cal_data.cal_pwr)
    let s := pushRadio s ("cal_values", RVal.list cal_data.cal_values)
    .ok (logMsg s "Calibration Done")

/-! ## Recording and radio parameter operations (lines 317-404) -/

/-- `start_recording` (lines 317-344): when no recorder is active, a `.rad`
suffixed name starts the spectrum recorder (name discarded when it is the
`*.rad` wildcard), any other or absent name starts the raw recorder; when a
recorder is active, only logs the rejection. -/
def start_recording (s : DaemonState) (name : Option String) : DaemonState :=
  if s.radio_save_raw_task = none ∧ s.radio_save_spec_task = none then
    match name with
    | none =>
      { s with
          radio_save_raw_task :=
            some (RawTask.mk s.radio_sample_frequency s.save_dir none true) }
    | some n =>
      if endsWithStr n ".rad" then
        let n2 : Option String := if n = "*.rad" then none else some n
        { s with
            radio_save_spec_task :=
              some (SpecTask.mk s.radio_sample_frequency s.radio_num_bins s.save_dir n2) }
      else
        { s with
            radio_save_raw_task :=
              some (RawTask.mk s.radio_sample_frequency s.save_dir (some n) true) }
  else
    logMsg s "Cannot Start Recording - Already Recording"

/-- `stop_recording` (lines 346-358): terminates and drops both recorder
handles. -/
def stop_recording (s : DaemonState) : DaemonState :=
  { s with radio_save_raw_task := none, radio_save_spec_task := none }

/-- `set_freq` (lines 360-375). -/
def set_freq (s : DaemonState) (frequency : ℚ) : DaemonState :=
  let s := { s with radio_center_frequency := frequency }
  pushRadio s ("freq", RVal.num s.radio_center_frequency)

/-- `set_samp_rate` (lines 377-394): terminates a running raw recorder — but
keeps the handle (`self.radio_save_raw_task` is not reset to `None`) — then
stores and queues the new rate. -/
def set_samp_rate (s : DaemonState) (samp_rate : ℚ) : DaemonState :=
  let s := { s with
               radio_save_raw_task :=
                 s.radio_save_raw_task.map fun (t : RawTask) => { t with running := false } }
  let s := { s with radio_sample_frequency := samp_rate }
  pushRadio s ("samp_rate", RVal.num s.radio_sample_frequency)

/-- `quit` (lines 396-404): `keep_running = False` in the source binds a fresh
local variable inside the method — the main loop's own `keep_running` is a
different local and is not written.  The only effect is queueing
`("is_running", False)` onto the radio parameter queue, whose sole consumer is
the `update_radio_settings` relay thread. -/
def quit (s : DaemonState) : DaemonState :=
  pushRadio s ("is_running", RVal.bool false)

/-! ## Ephemeris refresh loop (lines 406-440) -/

/-- One 1 Hz tick of `update_ephemeris_location`; `newTable` is the object
table currently provided by the ephemeris collaborator.  When a tracked
object is set, destination and commanded position are recomputed and both
must pass the bounds check, otherwise tracking is cleared and the rejection
logged. -/
def ephemerisRefreshStep (env : Env) (newTable : List (String × (ℚ × ℚ)))
    (s : DaemonState) : PyResult :=
  let s := { s with ephemeris_locations := newTable }
  match s.ephemeris_cmd_location with
  | none => .ok s
  | some id =>
    match List.lookup id s.ephemeris_locations with
    | none => .error (.keyError, s)
    | some new_rotor_destination =>
      let new_rotor_cmd_location :=
        (new_rotor_destination.1 + s.rotor_offsets.1,
         new_rotor_destination.2 + s.rotor_offsets.2)
      if env.withinBounds new_rotor_destination.1 new_rotor_destination.2 &&
         env.withinBounds new_rotor_cmd_location.1 new_rotor_cmd_location.2 then
        .ok { s with rotor_destination := new_rotor_destination,
                     rotor_cmd_location := new_rotor_cmd_location }
      else
        .ok (logMsg { s with ephemeris_cmd_location := none }
              ("Object " ++ id ++ " moved out of motor bounds"))

/-! ## Startup calibration load (lines 84-96) -/

/-- The calibration profile computed in `__init__`: neutral defaults
(`[1.0] * num_bins`, `1 / (tsys + tcal)`), replaced by the persisted document
exactly when one exists and its `cal_values` length matches the configured
bin count. -/
def init_calibration (radio_num_bins : ℕ) (temp_sys temp_cal : ℚ)
    (file : Option CalDoc) : List ℚ × ℚ :=
  let cal_values : List ℚ := List.replicate radio_num_bins 1
  let cal_power : ℚ := 1 / (temp_sys + temp_cal)
  match file with
  | none => (cal_values, cal_power)
  | some cal_data =>
    if cal_data.cal_values.length = radio_num_bins then
      (cal_data.cal_values, cal_data.cal_pwr)
    else
      (cal_values, cal_power)

/-! ## Time parsing (the `lst` and absolute-time command branches) -/

/-- `datetime.strptime(t, "%H:%M:%S")`, reduced to the second-of-day it
denotes; `none` models the `ValueError` raised on any string that does not
match the format (in particular any string still carrying an `lst` prefix). -/
def parseHMS (t : String) : Option ℕ :=
  match splitStr ':' t with
  | [h, m, sec] =>
    match parseNatStr h, parseNatStr m, parseNatStr sec with
    | some hv, some mv, some sv =>
      if h.data.length ≤ 2 ∧ m.data.length ≤ 2 ∧ sec.data.length ≤ 2 ∧
         hv ≤ 23 ∧ mv ≤ 59 ∧ sv ≤ 61 then
        some (hv * 3600 + mv * 60 + sv)
      else none
    | _, _, _ => none
  | _ => none

/-- Effect of the rollover loop `while time_val < now: time_val += 1 day`
starting from 1900-01-01 at second-of-day `secs`: the least timestamp that is
`secs` modulo a day and not earlier than `now` (seconds since 1900-01-01). -/
def nextOccurrence (now secs : ℕ) : ℕ :=
  if now ≤ secs then secs else secs + 86400 * ((now - secs + 86399) / 86400)

/-- Leap years of the proleptic Gregorian calendar used by `datetime`. -/
def isLeapYear (y : ℕ) : Bool :=
  y % 4 = 0 && (y % 100 != 0 || y % 400 = 0)

/-- Number of leap years in `[1, y)`. -/
def leapsBefore (y : ℕ) : ℕ :=
  (y - 1) / 4 - (y - 1) / 100 + (y - 1) / 400

/-- `datetime.strptime(t, "%Y:%j:%H:%M:%S")` reduced to seconds since
1900-01-01 00:00:00 (negative for years before 1900); `none` models the
`ValueError` on a malformed string. -/
def parseYDHMS (t : String) : Option ℤ :=
  match splitStr ':' t with
  | [ys, ds, h, m, sec] =>
    match parseNatStr ys, parseNatStr ds, parseNatStr h, parseNatStr m, parseNatStr sec with
    | some y, some d, some hv, some mv, some sv =>
      if ys.data.length ≤ 4 ∧ ds.data.length ≤ 3 ∧ h.data.length ≤ 2 ∧
         m.data.length ≤ 2 ∧ sec.data.length ≤ 2 ∧
         1 ≤ y ∧ y ≤ 9999 ∧ 1 ≤ d ∧ d ≤ (if isLeapYear y then 366 else 365) ∧
         hv ≤ 23 ∧ mv ≤ 59 ∧ sv ≤ 61 then
        some ((365 * ((y : ℤ) - 1900) + ((leapsBefore y : ℤ) - (leapsBefore 1900 : ℤ)) +
               ((d : ℤ) - 1)) * 86400 + ((hv : ℤ) * 3600 + (mv : ℤ) * 60 + (sv : ℤ)))
      else none
    | _, _, _, _, _ => none
  | _ => none

/-! ## The command interpreter (main loop body, daemon.py lines 602-677) -/

/-- The state after the unconditional head of a loop iteration: the command is
logged (`log_message`) and recorded as the current queue item (lines 607-608). -/
def runState (s : DaemonState) (command : String) : DaemonState :=
  logMsg { s with current_queue_item := command } ("Running Command " ++ command)

/-- The keyword a command is dispatched on: first whitespace token of the
(possibly `:`-stripped) command, lowercased (lines 611-614). -/
def cmdNameOf (command0 : String) : String :=
  let command := if frontChar command0 = ':' then trimStr (dropStr 1 command0) else command0
  lowerStr ((splitStr ' ' command).headD "")

/-- The dispatch of one dequeued command line (lines 609-670), applied to the
state in which the command has already been logged.  Errors carry the Python
exception class and the state at the raise. -/
def commandStepDispatch (env : Env) (s : DaemonState) (command0 : String) : PyResult :=
  if command0.length < 2 ∨ frontChar command0 = '*' then .ok s
  else
    let command := if frontChar command0 = ':' then trimStr (dropStr 1 command0) else command0
    let command_parts := splitStr ' ' command
    let command_name := lowerStr (command_parts.headD "")
    if (List.lookup (command_parts.headD "") s.ephemeris_locations).isSome then
      if command_parts.getLastD "" = "n" then
        n_point_scan env s (command_parts.headD "")
      else if command_parts.getLastD "" = "b" then
        beam_switch env s (command_parts.headD "")
      else
        point_at_object env s (command_parts.headD "")
    else if command_name = "stow" then .ok (stow s)
    else if command_name = "cal" then
      .ok (point_at_azel env s s.cal_location.1 s.cal_location.2)
    else if command_name = "calibrate" then calibrate env s
    else if command_name = "quit" then .ok (quit s)
    else if command_name = "record" then
      .ok (start_recording s
            (if command_parts.length ≤ 1 then none else some (command_parts.getD 1 "")))
    else if command_name = "roff" then .ok (stop_recording s)
    else if command_name = "freq" then
      match getArg s command_parts 1 with
      | .error e => .error e
      | .ok a1 =>
        match parseFloatE s a1 with
        | .error e => .error e
        | .ok f => .ok (set_freq s ((f.mulQ (10 ^ 6)).storedRat))
    else if command_name = "samp" then
      match getArg s command_parts 1 with
      | .error e => .error e
      | .ok a1 =>
        match parseFloatE s a1 with
        | .error e => .error e
        | .ok f => .ok (set_samp_rate s ((f.mulQ (10 ^ 6)).storedRat))
    else if command_name = "azel" then
      match getArg s command_parts 1 with
      | .error e => .error e
      | .ok a1 =>
        match parseFloatE s a1 with
        | .error e => .error e
        | .ok az =>
          match getArg s command_parts 2 with
          | .error e => .error e
          | .ok a2 =>
            match parseFloatE s a2 with
            | .error e => .error e
            | .ok el => .ok (point_at_azel env s az.storedRat el.storedRat)
    else if command_name = "offset" then
      match getArg s command_parts 1 with
      | .error e => .error e
      | .ok a1 =>
        match parseFloatE s a1 with
        | .error e => .error e
        | .ok az =>
          match getArg s command_parts 2 with
          | .error e => .error e
          | .ok a2 =>
            match parseFloatE s a2 with
            | .error e => .error e
            | .ok el => .ok (point_at_offset env s az.storedRat el.storedRat)
    else if isNumericStr command_name then
      match parseFloatE s command_name with
      | .error e => .error e
      | .ok f => pySleep s f
    else if command_name = "wait" then
      match getArg s command_parts 1 with
      | .error e => .error e
      | .ok a1 =>
        match parseFloatE s a1 with
        | .error e => .error e
        | .ok f => pySleep s f
    else if (splitStr ':' command_name).headD "" = "lst" then
      -- `command_name` is lowercased, so `.replace("LST:", "")` never fires
      -- and `strptime` receives a string still prefixed by `lst`.
      let time_string := replaceStr command_name "LST:" ""
      match parseHMS time_string with
      | none =>
        .error (.valueError
          ("time data " ++ time_string ++ " does not match format %H:%M:%S"), s)
      | some secs =>
        let target := nextOccurrence env.now secs
        pySleep s (.finite ((target : ℚ) - (env.now : ℚ)))
    else if (splitStr ':' command_name).length = 5 then
      match parseYDHMS command_name with
      | none =>
        .error (.valueError
          ("time data " ++ command_name ++ " does not match format %Y:%j:%H:%M:%S"), s)
      | some target =>
        pySleep s (.finite ((target : ℚ) - (env.now : ℚ)))
    else
      .ok (logMsg s ("Command Not Identified " ++ command))

/-- The body of one `while keep_running` iteration, inside the `try`
(lines 605-670): log the command (lines 607-608), then dispatch it. -/
def commandStepRaw (env : Env) (s : DaemonState) (command0 : String) : PyResult :=
  commandStepDispatch env (runState s command0) command0

/-- One loop iteration including the exception handlers (lines 672-677):
`IndexError`, `ValueError` and `ConnectionRefusedError` are logged and the
loop continues; any other class propagates and ends the main thread. -/
def commandStep (env : Env) (s : DaemonState) (command0 : String) : PyResult :=
  match commandStepRaw env s command0 with
  | .ok s2 => .ok s2
  | .error (.indexError m, s2) => .ok (logMsg s2 m)
  | .error (.valueError m, s2) => .ok (logMsg s2 m)
  | .error (.connectionRefusedError m, s2) => .ok (logMsg s2 m)
  | .error e => .error e

/-- Outcome of running the main loop on a finite prefix of the command
queue. -/
inductive LoopResult where
  /-- The loop is still live and blocked in `command_queue.get()`. -/
  | blocked (s : DaemonState)
  /-- An uncaught exception escaped the `while` loop; the epilogue did not
  run. -/
  | crashed (e : PyErr) (s : DaemonState)
  /-- `keep_running` was found false: the loop exited and the epilogue
  (stow, stop recordings, optionally terminate the radio process) ran. -/
  | finished (s : DaemonState)
deriving DecidableEq

/-- Lines 679-683: on leaving the `while` loop, return to stow, end
recordings, and terminate the radio process when it was autostarted. -/
def epilogue (s : DaemonState) : DaemonState :=
  let s := stop_recording (stow s)
  if s.radio_autostart then { s with radio_process_running := false } else s

/-- `srt_daemon_main`'s `while keep_running` loop (lines 600-683) run against
a finite prefix of the incoming command queue.  `keep_running` is the local
variable of `srt_daemon_main`: nothing in the loop body ever writes it (the
`keep_running = False` inside `quit` binds a method-local name), so it is
threaded through unchanged. -/
def mainLoop (env : Env) (keep_running : Bool) : List String → DaemonState → LoopResult
  | [], s => if keep_running then .blocked s else .finished (epilogue s)
  | c :: rest, s =>
    if keep_running then
      match commandStep env { s with current_queue_item := "None" } c with
      | .ok s2 => mainLoop env keep_running rest s2
      | .error (e, s2) => .crashed e s2
    else .finished (epilogue s)

/-! ## Error-class analysis of the command interpreter -/

/-- A failed `parts[i]` raises `IndexError` with the unmutated state. -/
theorem getArg_error {s : DaemonState} {parts : List String} {i : ℕ} {es : PyErr × DaemonState}
    (h : getArg s parts i = .error es) : ∃ m, es = (.indexError m, s) := by
  unfold getArg at h
  split at h
  · simp at h
  · simp only [Except.error.injEq] at h
    exact ⟨_, h.symm⟩

theorem parseFloatE_error {s : DaemonState} {v : String} {es : PyErr × DaemonState}
    (h : parseFloatE s v = .error es) : ∃ m, es = (.valueError m, s) := by
  unfold parseFloatE at h
  split at h
  · simp at h
  · simp only [Except.error.injEq] at h
    exact ⟨_, h.symm⟩

theorem pySleep_error {s : DaemonState} {d : PyFloat} {es : PyErr × DaemonState}
    (h : pySleep s d = .error es) :
    ∃ m, es = (.valueError m, s) ∨ es = (.overflowError m, s) := by
  cases d with
  | nan =>
    simp only [pySleep, Except.error.injEq] at h
    exact ⟨_, Or.inl h.symm⟩
  | inf b =>
    simp only [pySleep, Except.error.injEq] at h
    exact ⟨_, Or.inr h.symm⟩
  | finite q =>
    simp only [pySleep] at h
    split at h
    · simp only [Except.error.injEq] at h
      exact ⟨_, Or.inr h.symm⟩
    · split at h
      · simp only [Except.error.injEq] at h
        exact ⟨_, Or.inl h.symm⟩
      · simp at h

theorem point_at_object_total (env : Env) (s : DaemonState) (oid : String) (dest : ℚ × ℚ)
    (hd : List.lookup oid s.ephemeris_locations = some dest) :
    ∃ s2, point_at_object env s oid = .ok s2 := by
  simp only [point_at_object, pushRadio, logMsg]
  simp only [hd]
  by_cases hb : env.withinBounds dest.1 dest.2 = true
  · simp [hb]
  · simp only [Bool.not_eq_true] at hb
    simp [hb]

theorem point_at_offset_eph (env : Env) (s : DaemonState) (a b : ℚ) :
    (point_at_offset env s a b).ephemeris_locations = s.ephemeris_locations := by
  simp only [point_at_offset, logMsg]
  by_cases hc : env.withinBounds (s.rotor_destination.1 + a) (s.rotor_destination.2 + b) = true
  · simp [hc]
  · simp only [Bool.not_eq_true] at hc
    simp [hc]

theorem nPointIter_total (env : Env) (oid : String) (k : ℕ) (s : DaemonState) (dest : ℚ × ℚ)
    (hd : List.lookup oid s.ephemeris_locations = some dest) :
    ∃ s2, nPointIter env oid k s = .ok s2 ∧
      s2.ephemeris_locations = s.ephemeris_locations := by
  simp only [nPointIter]
  simp only [hd]
  refine ⟨_, rfl, ?_⟩
  by_cases hb : env.withinBounds dest.1 dest.2 = true
  · simp [hb, sleepFor, point_at_offset_eph]
  · simp only [Bool.not_eq_true] at hb
    simp [hb, sleepFor]

theorem nPointLoop_total (env : Env) (oid : String) :
    ∀ (l : List ℕ) (s : DaemonState) (dest : ℚ × ℚ),
    List.lookup oid s.ephemeris_locations = some dest →
    ∃ s2, foldSteps (nPointIter env oid) l s = .ok s2 ∧
      s2.ephemeris_locations = s.ephemeris_locations := by
  intro l
  induction l with
  | nil => exact fun s dest hd => ⟨s, rfl, rfl⟩
  | cons k ks ih =>
    intro s dest hd
    obtain ⟨s2, h2, hp⟩ := nPointIter_total env oid k s dest hd
    obtain ⟨s3, h3, hp3⟩ := ih s2 dest (by rw [hp]; exact hd)
    refine ⟨s3, ?_, by rw [hp3, hp]⟩
    simp only [foldSteps, h2]
    exact h3

theorem n_point_scan_total (env : Env) (s : DaemonState) (oid : String) (dest : ℚ × ℚ)
    (hd : List.lookup oid s.ephemeris_locations = some dest) :
    ∃ s2, n_point_scan env s oid = .ok s2 := by
  have hd1 : List.lookup oid (scanSetup s oid).ephemeris_locations = some dest := by
    simpa [scanSetup, pushRadio] using hd
  obtain ⟨s2, h2, _⟩ := nPointLoop_total env oid (List.range 25) (scanSetup s oid) dest hd1
  refine ⟨{ s2 with rotor_offsets := ((0 : ℚ), (0 : ℚ)), ephemeris_cmd_location := some oid }, ?_⟩
  simp only [n_point_scan]
  rw [h2]

theorem beam_switch_total (env : Env) (s : DaemonState) (oid : String) (dest : ℚ × ℚ)
    (hd : List.lookup oid s.ephemeris_locations = some dest) :
    ∃ s2, beam_switch env s oid = .ok s2 := by
  have hd1 : List.lookup oid (scanSetup s oid).ephemeris_locations = some dest := by
    simpa [scanSetup, pushRadio] using hd
  simp only [beam_switch]
  simp only [hd1]
  exact ⟨_, rfl⟩

theorem commandStepDispatch_error (env : Env) (s : DaemonState) (c : String) (e : PyErr)
    (sp : DaemonState) (h : commandStepDispatch env s c = .error (e, sp)) :
    (∃ m, e = .indexError m) ∨ (∃ m, e = .valueError m) ∨
    ((∃ m, e = .overflowError m) ∧
      (isNumericStr (cmdNameOf c) = true ∨ cmdNameOf c = "wait" ∨
       (splitStr ':' (cmdNameOf c)).headD "" = "lst" ∨
       (splitStr ':' (cmdNameOf c)).length = 5)) ∨
    (e = .fileNotFoundError ∧ env.calibration_file = none ∧ cmdNameOf c = "calibrate") := by
  simp only [commandStepDispatch] at h
  set command := if frontChar c = ':' then trimStr (dropStr 1 c) else c with hcommand
  set parts := splitStr ' ' command with hparts
  set name := lowerStr (parts.headD "") with hname
  have hcn : cmdNameOf c = name := by
    rw [hname, hparts, hcommand]
    rfl
  by_cases hg : c.length < 2 ∨ frontChar c = '*'
  · rw [if_pos hg] at h
    simp at h
  · rw [if_neg hg] at h
    by_cases hobj : (List.lookup (parts.headD "") s.ephemeris_locations).isSome = true
    · rw [if_pos hobj] at h
      obtain ⟨dest, hdest⟩ := Option.isSome_iff_exists.mp hobj
      by_cases hn : parts.getLastD "" = "n"
      · rw [if_pos hn] at h
        obtain ⟨s2, h2⟩ := n_point_scan_total env s (parts.headD "") dest hdest
        rw [h2] at h
        simp at h
      · rw [if_neg hn] at h
        by_cases hbm : parts.getLastD "" = "b"
        · rw [if_pos hbm] at h
          obtain ⟨s2, h2⟩ := beam_switch_total env s (parts.headD "") dest hdest
          rw [h2] at h
          simp at h
        · rw [if_neg hbm] at h
          obtain ⟨s2, h2⟩ := point_at_object_total env s (parts.headD "") dest hdest
          rw [h2] at h
          simp at h
    · rw [if_neg hobj] at h
      by_cases h5 : name = "stow"
      · rw [if_pos h5] at h
        simp at h
      · rw [if_neg h5] at h
        by_cases h6 : name = "cal"
        · rw [if_pos h6] at h
          simp at h
        · rw [if_neg h6] at h
          by_cases h7 : name = "calibrate"
          · rw [if_pos h7] at h
            unfold calibrate at h
            cases hf : env.calibration_file with
            | none =>
              rw [hf] at h
              simp only [Except.error.injEq, Prod.mk.injEq] at h
              exact Or.inr (Or.inr (Or.inr ⟨h.1.symm, rfl, by rw [hcn]; exact h7⟩))
            | some d =>
              rw [hf] at h
              simp at h
          · rw [if_neg h7] at h
            by_cases h8 : name = "quit"
            · rw [if_pos h8] at h
              simp at h
            · rw [if_neg h8] at h
              by_cases h9 : name = "record"
              · rw [if_pos h9] at h
                simp at h
              · rw [if_neg h9] at h
                by_cases h10 : name = "roff"
                · rw [if_pos h10] at h
                  simp at h
                · rw [if_neg h10] at h
                  by_cases h11 : name = "freq"
                  · rw [if_pos h11] at h
                    cases hg1 : getArg s parts 1 with
                    | error es =>
                      simp only [hg1] at h
                      obtain ⟨m, hm⟩ := getArg_error hg1
                      rw [hm] at h
                      simp only [Except.error.injEq, Prod.mk.injEq] at h
                      exact Or.inl ⟨m, h.1.symm⟩
                    | ok a1 =>
                      simp only [hg1] at h
                      cases hp1 : parseFloatE s a1 with
                      | error es =>
                        simp only [hp1] at h
                        obtain ⟨m, hm⟩ := parseFloatE_error hp1
                        rw [hm] at h
                        simp only [Except.error.injEq, Prod.mk.injEq] at h
                        exact Or.inr (Or.inl ⟨m, h.1.symm⟩)
                      | ok f =>
                        simp only [hp1] at h
                        simp at h
                  · rw [if_neg h11] at h
                    by_cases h12 : name = "samp"
                    · rw [if_pos h12] at h
                      cases hg1 : getArg s parts 1 with
                      | error es =>
                        simp only [hg1] at h
                        obtain ⟨m, hm⟩ := getArg_error hg1
                        rw [hm] at h
                        simp only [Except.error.injEq, Prod.mk.injEq] at h
                        exact Or.inl ⟨m, h.1.symm⟩
                      | ok a1 =>
                        simp only [hg1] at h
                        cases hp1 : parseFloatE s a1 with
                        | error es =>
                          simp only [hp1] at h
                          obtain ⟨m, hm⟩ := parseFloatE_error hp1
                          rw [hm] at h
                          simp only [Except.error.injEq, Prod.mk.injEq] at h
                          exact Or.inr (Or.inl ⟨m, h.1.symm⟩)
                        | ok f =>
                          simp only [hp1] at h
                          simp at h
                    · rw [if_neg h12] at h
                      by_cases h13 : name = "azel"
                      · rw [if_pos h13] at h
                        cases hg1 : getArg s parts 1 with
                        | error es =>
                          simp only [hg1] at h
                          obtain ⟨m, hm⟩ := getArg_error hg1
                          rw [hm] at h
                          simp only [Except.error.injEq, Prod.mk.injEq] at h
                          exact Or.inl ⟨m, h.1.symm⟩
                        | ok a1 =>
                          simp only [hg1] at h
                          cases hp1 : parseFloatE s a1 with
                          | error es =>
                            simp only [hp1] at h
                            obtain ⟨m, hm⟩ := parseFloatE_error hp1
                            rw [hm] at h
                            simp only [Except.error.injEq, Prod.mk.injEq] at h
                            exact Or.inr (Or.inl ⟨m, h.1.symm⟩)
                          | ok az =>
                            simp only [hp1] at h
                            cases hg2 : getArg s parts 2 with
                            | error es =>
                              simp only [hg2] at h
                              obtain ⟨m, hm⟩ := getArg_error hg2
                              rw [hm] at h
                              simp only [Except.error.injEq, Prod.mk.injEq] at h
                              exact Or.inl ⟨m, h.1.symm⟩
                            | ok a2 =>
                              simp only [hg2] at h
                              cases hp2 : parseFloatE s a2 with
                              | error es =>
                                simp only [hp2] at h
                                obtain ⟨m, hm⟩ := parseFloatE_error hp2
                                rw [hm] at h
                                simp only [Except.error.injEq, Prod.mk.injEq] at h
                                exact Or.inr (Or.inl ⟨m, h.1.symm⟩)
                              | ok el =>
                                simp only [hp2] at h
                                simp at h
                      · rw [if_neg h13] at h
                        by_cases h14 : name = "offset"
                        · rw [if_pos h14] at h
                          cases hg1 : getArg s parts 1 with
                          | error es =>
                            simp only [hg1] at h
                            obtain ⟨m, hm⟩ := getArg_error hg1
                            rw [hm] at h
                            simp only [Except.error.injEq, Prod.mk.injEq] at h
                            exact Or.inl ⟨m, h.1.symm⟩
                          | ok a1 =>
                            simp only [hg1] at h
                            cases hp1 : parseFloatE s a1 with
                            | error es =>
                              simp only [hp1] at h
                              obtain ⟨m, hm⟩ := parseFloatE_error hp1
                              rw [hm] at h
                              simp only [Except.error.injEq, Prod.mk.injEq] at h
                              exact Or.inr (Or.inl ⟨m, h.1.symm⟩)
                            | ok az =>
                              simp only [hp1] at h
                              cases hg2 : getArg s parts 2 with
                              | error es =>
                                simp only [hg2] at h
                                obtain ⟨m, hm⟩ := getArg_error hg2
                                rw [hm] at h
                                simp only [Except.error.injEq, Prod.mk.injEq] at h
                                exact Or.inl ⟨m, h.1.symm⟩
                              | ok a2 =>
                                simp only [hg2] at h
                                cases hp2 : parseFloatE s a2 with
                                | error es =>
                                  simp only [hp2] at h
                                  obtain ⟨m, hm⟩ := parseFloatE_error hp2
                                  rw [hm] at h
                                  simp only [Except.error.injEq, Prod.mk.injEq] at h
                                  exact Or.inr (Or.inl ⟨m, h.1.symm⟩)
                                | ok el =>
                                  simp only [hp2] at h
                                  simp at h
                        · rw [if_neg h14] at h
                          by_cases h15 : isNumericStr name = true
                          · rw [if_pos h15] at h
                            cases hp1 : parseFloatE s name with
                            | error es =>
                              simp only [hp1] at h
                              obtain ⟨m, hm⟩ := parseFloatE_error hp1
                              rw [hm] at h
                              simp only [Except.error.injEq, Prod.mk.injEq] at h
                              exact Or.inr (Or.inl ⟨m, h.1.symm⟩)
                            | ok f =>
                              simp only [hp1] at h
                              cases hsl : pySleep s f with
                              | error es =>
                                simp only [hsl] at h
                                obtain ⟨m, hm⟩ := pySleep_error hsl
                                rcases hm with hm | hm
                                · rw [hm] at h
                                  simp only [Except.error.injEq, Prod.mk.injEq] at h
                                  exact Or.inr (Or.inl ⟨m, h.1.symm⟩)
                                · rw [hm] at h
                                  simp only [Except.error.injEq, Prod.mk.injEq] at h
                                  refine Or.inr (Or.inr (Or.inl ⟨⟨m, h.1.symm⟩, ?_⟩))
                                  rw [hcn]
                                  exact Or.inl h15
                              | ok s3 =>
                                simp only [hsl] at h
                                simp at h
                          · rw [if_neg h15] at h
                            by_cases h16 : name = "wait"
                            · rw [if_pos h16] at h
                              cases hg1 : getArg s parts 1 with
                              | error es =>
                                simp only [hg1] at h
                                obtain ⟨m, hm⟩ := getArg_error hg1
                                rw [hm] at h
                                simp only [Except.error.injEq, Prod.mk.injEq] at h
                                exact Or.inl ⟨m, h.1.symm⟩
                              | ok a1 =>
                                simp only [hg1] at h
                                cases hp1 : parseFloatE s a1 with
                                | error es =>
                                  simp only [hp1] at h
                                  obtain ⟨m, hm⟩ := parseFloatE_error hp1
                                  rw [hm] at h
                                  simp only [Except.error.injEq, Prod.mk.injEq] at h
                                  exact Or.inr (Or.inl ⟨m, h.1.symm⟩)
                                | ok f =>
                                  simp only [hp1] at h
                                  cases hsl : pySleep s f with
                                  | error es =>
                                    simp only [hsl] at h
                                    obtain ⟨m, hm⟩ := pySleep_error hsl
                                    rcases hm with hm | hm
                                    · rw [hm] at h
                                      simp only [Except.error.injEq, Prod.mk.injEq] at h
                                      exact Or.inr (Or.inl ⟨m, h.1.symm⟩)
                                    · rw [hm] at h
                                      simp only [Except.error.injEq, Prod.mk.injEq] at h
                                      refine Or.inr (Or.inr (Or.inl ⟨⟨m, h.1.symm⟩, ?_⟩))
                                      rw [hcn]
                                      exact Or.inr (Or.inl h16)
                                  | ok s3 =>
                                    simp only [hsl] at h
                                    simp at h
                            · rw [if_neg h16] at h
                              by_cases h17 : (splitStr ':' name).headD "" = "lst"
                              · rw [if_pos h17] at h
                                cases hp : parseHMS (replaceStr name "LST:" "") with
                                | none =>
                                  simp only [hp] at h
                                  simp only [Except.error.injEq, Prod.mk.injEq] at h
                                  exact Or.inr (Or.inl ⟨_, h.1.symm⟩)
                                | some secs =>
                                  simp only [hp] at h
                                  cases hsl : pySleep s (PyFloat.finite ((nextOccurrence env.now secs : ℚ) - (env.now : ℚ))) with
                                  | error es =>
                                    simp only [hsl] at h
                                    obtain ⟨m, hm⟩ := pySleep_error hsl
                                    rcases hm with hm | hm
                                    · rw [hm] at h
                                      simp only [Except.error.injEq, Prod.mk.injEq] at h
                                      exact Or.inr (Or.inl ⟨m, h.1.symm⟩)
                                    · rw [hm] at h
                                      simp only [Except.error.injEq, Prod.mk.injEq] at h
                                      refine Or.inr (Or.inr (Or.inl ⟨⟨m, h.1.symm⟩, ?_⟩))
                                      rw [hcn]
                                      exact Or.inr (Or.inr (Or.inl h17))
                                  | ok s3 =>
                                    simp only [hsl] at h
                                    simp at h
                              · rw [if_neg h17] at h
                                by_cases h18 : (splitStr ':' name).length = 5
                                · rw [if_pos h18] at h
                                  cases hp : parseYDHMS name with
                                  | none =>
                                    simp only [hp] at h
                                    simp only [Except.error.injEq, Prod.mk.injEq] at h
                                    exact Or.inr (Or.inl ⟨_, h.1.symm⟩)
                                  | some target =>
                                    simp only [hp] at h
                                    cases hsl : pySleep s (PyFloat.finite ((target : ℚ) - (env.now : ℚ))) with
                                    | error es =>
                                      simp only [hsl] at h
                                      obtain ⟨m, hm⟩ := pySleep_error hsl
                                      rcases hm with hm | hm
                                      · rw [hm] at h
                                        simp only [Except.error.injEq, Prod.mk.injEq] at h
                                        exact Or.inr (Or.inl ⟨m, h.1.symm⟩)
                                      · rw [hm] at h
                                        simp only [Except.error.injEq, Prod.mk.injEq] at h
                                        refine Or.inr (Or.inr (Or.inl ⟨⟨m, h.1.symm⟩, ?_⟩))
                                        rw [hcn]
                                        exact Or.inr (Or.inr (Or.inr h18))
                                    | ok s3 =>
                                      simp only [hsl] at h
                                      simp at h
                                · rw [if_neg h18] at h
                                  simp at h

/-! ## Concrete fixtures for witnesses and counterexamples -/

/-- An environment whose motor accepts every angle pair. -/
def envOpen : Env :=
  { withinBounds := fun _ _ => true
    cosDeg := fun _ => 1
    calibration_file := none
    now := 0 }

/-- An environment whose motor accepts azimuth and elevation within
`[0, 90]` only (a concrete instance of the capability surface). -/
def envBox : Env :=
  { withinBounds := fun az el => decide (0 ≤ az ∧ az ≤ 90 ∧ 0 ≤ el ∧ el ≤ 90)
    cosDeg := fun _ => 1
    calibration_file := none
    now := 0 }

/-- A concrete daemon state: one catalogued object, no recorders, empty
traces. -/
def baseState : DaemonState :=
  { stow_location := (0, 0)
    cal_location := (1, 1)
    radio_center_frequency := 1420000000
    radio_sample_frequency := 2000000
    radio_num_bins := 4
    beamwidth := 2
    temp_sys := 100
    temp_cal := 200
    save_dir := "rec"
    cal_values := [1, 1, 1, 1]
    cal_power := 1 / 300
    ephemeris_locations := [("Sun", (30, 40))]
    ephemeris_cmd_location := none
    rotor_location := (0, 0)
    rotor_destination := (0, 0)
    rotor_offsets := (0, 0)
    rotor_cmd_location := (0, 0)
    radio_queue := []
    radio_save_raw_task := none
    radio_save_spec_task := none
    radio_autostart := false
    radio_process_running := false
    current_queue_item := "None"
    command_error_logs := []
    sleeps := [] }

/-! ## Claim theorems -/

/-- Claim C10: `stow` unconditionally commits the configured stow location as
destination and commanded position, zeroes the offset and clears
`trackedObjectId`.  The statement needs no bounds hypothesis and holds for
every state — `stow` contains no call to the motor's `angles_within_bounds`
capability, so no bounds check precedes the commit. -/
theorem C10_stow_unchecked : ∀ s : DaemonState,
    (stow s).rotor_destination = s.stow_location ∧
    (stow s).rotor_cmd_location = s.stow_location ∧
    (stow s).rotor_offsets = (0, 0) ∧
    (stow s).ephemeris_cmd_location = none ∧
    (stow s).radio_queue = s.radio_queue ++ [("soutrack", RVal.str "at_stow")] := by
  intro s
  refine ⟨rfl, rfl, rfl, rfl, rfl⟩

/-- Claim C8: the startup calibration profile is taken from the persisted
document exactly when one exists and its `cal_values` length equals the
configured bin count; otherwise every gain factor defaults to `1.0` and the
power to `1 / (Tsys + Tcal)`. -/
theorem C8_startup_calibration :
    ∀ (bins : ℕ) (tsys tcal : ℚ) (file : Option CalDoc),
    (∀ d, file = some d → d.cal_values.length = bins →
        init_calibration bins tsys tcal file = (d.cal_values, d.cal_pwr)) ∧
    (file = none →
        init_calibration bins tsys tcal file = (List.replicate bins 1, 1 / (tsys + tcal))) ∧
    (∀ d, file = some d → d.cal_values.length ≠ bins →
        init_calibration bins tsys tcal file = (List.replicate bins 1, 1 / (tsys + tcal))) := by
  intro bins tsys tcal file
  refine ⟨?_, ?_, ?_⟩
  · intro d hd hlen
    subst hd
    simp [init_calibration, hlen]
  · intro hd
    subst hd
    simp [init_calibration]
  · intro d hd hlen
    subst hd
    simp [init_calibration, hlen]

/-- Witness for C8 at concrete inputs: a matching 4-bin document is loaded; a
missing file and a mismatched document both yield the neutral profile. -/
theorem C8_startup_calibration_witness :
    init_calibration 4 100 200 (some (CalDoc.mk [2, 3, 4, 5] 7)) = ([2, 3, 4, 5], 7) ∧
    init_calibration 4 100 200 none = ([1, 1, 1, 1], 1 / (100 + 200)) ∧
    init_calibration 4 100 200 (some (CalDoc.mk [2, 3] 7)) = ([1, 1, 1, 1], 1 / (100 + 200)) := by
  refine ⟨?_, ?_, ?_⟩
  · exact (C8_startup_calibration 4 100 200 (some (CalDoc.mk [2, 3, 4, 5] 7))).1
      (CalDoc.mk [2, 3, 4, 5] 7) rfl (by decide)
  · exact (C8_startup_calibration 4 100 200 none).2.1 rfl
  · exact (C8_startup_calibration 4 100 200 (some (CalDoc.mk [2, 3] 7))).2.2
      (CalDoc.mk [2, 3] 7) rfl (by decide)

/-- Claim C9: `set_samp_rate` terminates a running raw-recording task but
keeps the stored handle `some`, so `start_recording` keeps refusing with the
"Already Recording" log message until `stop_recording` clears both handles. -/
theorem C9_samp_rate_keeps_handle :
    ∀ (s : DaemonState) (v : ℚ) (t : RawTask),
    s.radio_save_raw_task = some t →
    (set_samp_rate s v).radio_save_raw_task = some { t with running := false } ∧
    (set_samp_rate s v).radio_save_raw_task ≠ none ∧
    (∀ (s2 : DaemonState) (name : Option String), s2.radio_save_raw_task ≠ none →
        start_recording s2 name = logMsg s2 "Cannot Start Recording - Already Recording") ∧
    (∀ s2 : DaemonState, (stop_recording s2).radio_save_raw_task = none ∧
        (stop_recording s2).radio_save_spec_task = none) := by
  intro s v t ht
  refine ⟨?_, ?_, ?_, ?_⟩
  · simp [set_samp_rate, pushRadio, ht]
  · simp [set_samp_rate, pushRadio, ht]
  · intro s2 name h2
    have hcond : ¬ (s2.radio_save_raw_task = none ∧ s2.radio_save_spec_task = none) := by
      intro hc
      exact h2 hc.1
    simp only [start_recording, if_neg hcond]
  · intro s2
    exact ⟨rfl, rfl⟩

/-- `baseState` with a live raw-recording task. -/
def rawBusyState : DaemonState :=
  { baseState with radio_save_raw_task := some (RawTask.mk 2000000 "rec" none true) }

/-- Witness for C9: with a concrete running raw task, `set_samp_rate` leaves a
non-`None` (terminated) handle and recording stays refused until
`stop_recording`. -/
theorem C9_samp_rate_keeps_handle_witness :
    (set_samp_rate rawBusyState 3000000).radio_save_raw_task =
      some (RawTask.mk 2000000 "rec" none false) ∧
    (set_samp_rate rawBusyState 3000000).radio_save_raw_task ≠ none ∧
    (∀ (s2 : DaemonState) (name : Option String), s2.radio_save_raw_task ≠ none →
        start_recording s2 name = logMsg s2 "Cannot Start Recording - Already Recording") ∧
    (∀ s2 : DaemonState, (stop_recording s2).radio_save_raw_task = none ∧
        (stop_recording s2).radio_save_spec_task = none) :=
  C9_samp_rate_keeps_handle rawBusyState 3000000 (RawTask.mk 2000000 "rec" none true) rfl

/-- Claim C7: `start_recording` routes a `.rad`-suffixed name to the
spectral recorder (the `*.rad` wildcard with no fixed name), any other or
absent name to the raw recorder, and refuses with a logged message while
either recorder is active. -/
theorem C7_record_routing :
    ∀ (s : DaemonState) (name : Option String),
    (s.radio_save_raw_task = none → s.radio_save_spec_task = none →
      (∀ n, name = some n → endsWithStr n ".rad" = true → n ≠ "*.rad" →
        start_recording s name =
          { s with radio_save_spec_task :=
                     some (SpecTask.mk s.radio_sample_frequency s.radio_num_bins s.save_dir (some n)) }) ∧
      (name = some "*.rad" →
        start_recording s name =
          { s with radio_save_spec_task :=
                     some (SpecTask.mk s.radio_sample_frequency s.radio_num_bins s.save_dir none) }) ∧
      (∀ n, name = some n → endsWithStr n ".rad" = false →
        start_recording s name =
          { s with radio_save_raw_task :=
                     some (RawTask.mk s.radio_sample_frequency s.save_dir (some n) true) }) ∧
      (name = none →
        start_recording s name =
          { s with radio_save_raw_task :=
                     some (RawTask.mk s.radio_sample_frequency s.save_dir none true) })) ∧
    (¬ (s.radio_save_raw_task = none ∧ s.radio_save_spec_task = none) →
      start_recording s name = logMsg s "Cannot Start Recording - Already Recording") := by
  intro s name
  constructor
  · intro hraw hspec
    refine ⟨?_, ?_, ?_, ?_⟩
    · intro n hn hsuf hwild
      subst hn
      simp [start_recording, hraw, hspec, hsuf, hwild]
    · intro hn
      subst hn
      have hsuf : endsWithStr "*.rad" ".rad" = true := by decide
      simp [start_recording, hraw, hspec, hsuf]
    · intro n hn hsuf
      subst hn
      simp [start_recording, hraw, hspec, hsuf]
    · intro hn
      subst hn
      simp [start_recording, hraw, hspec]
  · intro hcond
    simp only [start_recording, if_neg hcond]

/-- Witness for C7 at concrete inputs: `test.rad` starts the spectral
recorder, `test.raw` the raw recorder, and a second `record` during a raw
capture only logs the rejection. -/
theorem C7_record_routing_witness :
    start_recording baseState (some "test.rad") =
      { baseState with
          radio_save_spec_task := some (SpecTask.mk 2000000 4 "rec" (some "test.rad")) } ∧
    start_recording baseState (some "test.raw") =
      { baseState with
          radio_save_raw_task := some (RawTask.mk 2000000 "rec" (some "test.raw") true) } ∧
    start_recording rawBusyState (some "x") =
      logMsg rawBusyState "Cannot Start Recording - Already Recording" := by
  refine ⟨?_, ?_, ?_⟩
  · exact ((C7_record_routing baseState (some "test.rad")).1 rfl rfl).1
      "test.rad" rfl (by decide) (by decide)
  · exact ((C7_record_routing baseState (some "test.raw")).1 rfl rfl).2.2.1
      "test.raw" rfl (by decide)
  · exact (C7_record_routing rawBusyState (some "x")).2 (by simp [rawBusyState, baseState])

/-- The open-mount environment with the clock at `n` seconds since
1900-01-01 00:00:00 UTC. -/
def envAt (n : ℕ) : Env :=
  { withinBounds := fun _ _ => true
    cosDeg := fun _ => 1
    calibration_file := none
    now := n }

/-- Claim C6 (code bug): the `lst` branch never sleeps.  `command_name` is
lowercased before dispatch (line 614) but line 655 removes the uppercase
pattern `"LST:"`, which can never occur in a lowercased string; `strptime`
therefore always receives a string still carrying the `lst` prefix and raises
`ValueError`, which the loop catches and logs.  This holds at every clock
value `nowSec` — in particular at 23:59:59 UTC (`nowSec = 86399`), where the
claim expects a sleep of about one second: instead no sleep is recorded and
the parse error is logged, for both the space-separated form of the spec
grammar and the colon-joined form the dispatch condition actually matches. -/
theorem C6_lst_raises_value_error :
    ∀ nowSec : ℕ,
    commandStep (envAt nowSec) baseState "lst 00:00:00" =
      .ok (logMsg (runState baseState "lst 00:00:00")
            "time data lst does not match format %H:%M:%S") ∧
    commandStep (envAt nowSec) baseState "LST:00:00:00" =
      .ok (logMsg (runState baseState "LST:00:00:00")
            "time data lst:00:00:00 does not match format %H:%M:%S") ∧
    (logMsg (runState baseState "lst 00:00:00")
      "time data lst does not match format %H:%M:%S").sleeps = [] ∧
    (logMsg (runState baseState "LST:00:00:00")
      "time data lst:00:00:00 does not match format %H:%M:%S").sleeps = [] :=
  fun _ => ⟨rfl, rfl, rfl, rfl⟩

/-- The state produced by processing the `quit` command from `baseState`
inside the main loop: the command is logged and `("is_running", False)` is
appended to the radio parameter queue; nothing else changes. -/
def afterQuit : DaemonState :=
  pushRadio (runState { baseState with current_queue_item := "None" } "quit")
    ("is_running", RVal.bool false)

/-- Claim C3 (code bug): `quit` does not terminate the main command loop.
`keep_running = False` inside `quit` (line 403) binds a local variable of the
method; the `keep_running` local of `srt_daemon_main` (line 600) is never
written, so after `quit` the loop goes straight back to blocking on
`command_queue.get()` (`LoopResult.blocked`, first conjunct below, which in
particular is not `finished`), and keeps dispatching any later commands
(second conjunct).  The stow / stop-recording epilogue of lines 679-683
(`epilogue` here) is unreachable through `quit`.  The
`("is_running", False)` entry lands on `radio_queue` (third conjunct), whose
sole consumer is the `update_radio_settings` relay thread — the main loop
never reads that queue — contradicting the claim that the main loop consumes
it, terminates, and first stows and halts recording. -/
theorem C3_quit_leaves_loop_running :
    mainLoop envOpen true ["quit"] baseState = .blocked afterQuit ∧
    (∀ cmds : List String,
        mainLoop envOpen true ("quit" :: cmds) baseState = mainLoop envOpen true cmds afterQuit) ∧
    afterQuit.radio_queue = baseState.radio_queue ++ [("is_running", RVal.bool false)] ∧
    afterQuit.radio_save_raw_task = baseState.radio_save_raw_task ∧
    afterQuit.rotor_cmd_location = baseState.rotor_cmd_location :=
  ⟨rfl, fun _ => rfl, rfl, rfl, rfl⟩

/-- `baseState` with an out-of-bounds configured stow location (the
configuration is not validated against the motor limits anywhere). -/
def stowBadState : DaemonState :=
  { baseState with stow_location := (200, 10) }

/-- `baseState` while actively tracking "Sun" near the edge of the
`envBox` travel range. -/
def trackingState : DaemonState :=
  { baseState with
      ephemeris_cmd_location := some "Sun"
      rotor_destination := (80, 80)
      rotor_cmd_location := (80, 80) }

/-- Counterexample to claim C1 as stated.  Two pointing operations violate
it on concrete inputs: `stow` commits a commanded position that fails the
configured bounds check (no bounds check precedes the assignment), and
`point_at_offset` on an out-of-bounds target rejects the move but leaves
`trackedObjectId` set (still `some "Sun"`), not cleared. -/
theorem C1_counterexample :
    envBox.withinBounds (stow stowBadState).rotor_cmd_location.1
      (stow stowBadState).rotor_cmd_location.2 = false ∧
    (stow stowBadState).rotor_cmd_location = (200, 10) ∧
    envBox.withinBounds (trackingState.rotor_destination.1 + 20)
      (trackingState.rotor_destination.2 + 5) = false ∧
    (point_at_offset envBox trackingState 20 5).ephemeris_cmd_location = some "Sun" ∧
    (point_at_offset envBox trackingState 20 5).rotor_cmd_location =
      trackingState.rotor_cmd_location := by
  have hc : envBox.withinBounds (trackingState.rotor_destination.1 + 20)
      (trackingState.rotor_destination.2 + 5) = false := by
    show decide _ = false
    norm_num [trackingState, baseState]
  have heq : point_at_offset envBox trackingState 20 5 =
      logMsg trackingState
        ("Offset " ++ toString (20 : ℚ) ++ " " ++ toString (5 : ℚ) ++ " Out of Bounds") := by
    simp only [point_at_offset]
    simp only [hc]
    simp
  refine ⟨by decide, rfl, hc, ?_, ?_⟩
  · rw [heq]
    rfl
  · rw [heq]
    rfl

/-- Claim C1 as amended: every pointing operation except `stow`, and the
ephemeris refresh, commit the commanded position only when it passes the
motor bounds check and leave it unchanged on an out-of-bounds target;
`point_at_object` and the refresh clear `trackedObjectId` on rejection and
`point_at_azel` clears it unconditionally, but `point_at_offset` leaves
`trackedObjectId` unchanged; and `stow` commits the configured stow location
with no bounds check at all. -/
theorem C1_amended_bounds_discipline :
    ∀ (env : Env) (s : DaemonState),
    (∀ oid dest, List.lookup oid s.ephemeris_locations = some dest →
      (env.withinBounds dest.1 dest.2 = true →
        ∃ s2, point_at_object env s oid = .ok s2 ∧
          s2.rotor_cmd_location = dest ∧
          env.withinBounds s2.rotor_cmd_location.1 s2.rotor_cmd_location.2 = true ∧
          s2.ephemeris_cmd_location = some oid) ∧
      (env.withinBounds dest.1 dest.2 = false →
        ∃ s2, point_at_object env s oid = .ok s2 ∧
          s2.rotor_cmd_location = s.rotor_cmd_location ∧
          s2.rotor_destination = s.rotor_destination ∧
          s2.ephemeris_cmd_location = none)) ∧
    (∀ az el,
      (point_at_azel env s az el).ephemeris_cmd_location = none ∧
      (env.withinBounds az el = true →
        (point_at_azel env s az el).rotor_cmd_location = (az, el) ∧
        env.withinBounds (point_at_azel env s az el).rotor_cmd_location.1
          (point_at_azel env s az el).rotor_cmd_location.2 = true) ∧
      (env.withinBounds az el = false →
        (point_at_azel env s az el).rotor_cmd_location = s.rotor_cmd_location ∧
        (point_at_azel env s az el).rotor_destination = s.rotor_destination)) ∧
    (∀ az_off el_off,
      (point_at_offset env s az_off el_off).ephemeris_cmd_location = s.ephemeris_cmd_location ∧
      (env.withinBounds (s.rotor_destination.1 + az_off) (s.rotor_destination.2 + el_off) = true →
        (point_at_offset env s az_off el_off).rotor_cmd_location =
          (s.rotor_destination.1 + az_off, s.rotor_destination.2 + el_off) ∧
        env.withinBounds (point_at_offset env s az_off el_off).rotor_cmd_location.1
          (point_at_offset env s az_off el_off).rotor_cmd_location.2 = true) ∧
      (env.withinBounds (s.rotor_destination.1 + az_off) (s.rotor_destination.2 + el_off) = false →
        (point_at_offset env s az_off el_off).rotor_cmd_location = s.rotor_cmd_location ∧
        (point_at_offset env s az_off el_off).rotor_offsets = s.rotor_offsets)) ∧
    (∀ table id dest, s.ephemeris_cmd_location = some id →
      List.lookup id table = some dest →
      ((env.withinBounds dest.1 dest.2 &&
          env.withinBounds (dest.1 + s.rotor_offsets.1) (dest.2 + s.rotor_offsets.2)) = true →
        ∃ s2, ephemerisRefreshStep env table s = .ok s2 ∧
          s2.rotor_cmd_location = (dest.1 + s.rotor_offsets.1, dest.2 + s.rotor_offsets.2) ∧
          env.withinBounds s2.rotor_cmd_location.1 s2.rotor_cmd_location.2 = true) ∧
      ((env.withinBounds dest.1 dest.2 &&
          env.withinBounds (dest.1 + s.rotor_offsets.1) (dest.2 + s.rotor_offsets.2)) = false →
        ∃ s2, ephemerisRefreshStep env table s = .ok s2 ∧
          s2.rotor_cmd_location = s.rotor_cmd_location ∧
          s2.ephemeris_cmd_location = none)) ∧
    ((stow s).rotor_cmd_location = s.stow_location ∧ (stow s).ephemeris_cmd_location = none) := by
  intro env s
  refine ⟨?_, ?_, ?_, ?_, rfl, rfl⟩
  · intro oid dest hl
    constructor
    · intro hb
      have heq : point_at_object env s oid = .ok
          { s with rotor_offsets := ((0 : ℚ), (0 : ℚ)),
                   radio_queue := s.radio_queue ++ [("soutrack", RVal.str oid)],
                   ephemeris_cmd_location := some oid,
                   rotor_destination := dest,
                   rotor_cmd_location := dest } := by
        simp only [point_at_object, pushRadio, logMsg]
        simp only [hl, hb, if_true]
      exact ⟨_, heq, rfl, hb, rfl⟩
    · intro hb
      have heq : point_at_object env s oid = .ok
          { s with rotor_offsets := ((0 : ℚ), (0 : ℚ)),
                   radio_queue := s.radio_queue ++ [("soutrack", RVal.str oid)],
                   command_error_logs :=
                     s.command_error_logs ++ ["Object " ++ oid ++ " Not in Motor Bounds"],
                   ephemeris_cmd_location := none } := by
        simp only [point_at_object, pushRadio, logMsg]
        simp only [hl, hb]
        simp
      exact ⟨_, heq, rfl, rfl, rfl⟩
  · intro az el
    refine ⟨?_, ?_, ?_⟩
    · by_cases hb : env.withinBounds az el = true
      · simp [point_at_azel, pushRadio, logMsg, hb]
      · simp only [Bool.not_eq_true] at hb
        simp [point_at_azel, pushRadio, logMsg, hb]
    · intro hb
      constructor
      · simp [point_at_azel, pushRadio, logMsg, hb]
      · simp [point_at_azel, pushRadio, logMsg, hb]
    · intro hb
      constructor
      · simp [point_at_azel, pushRadio, logMsg, hb]
      · simp [point_at_azel, pushRadio, logMsg, hb]
  · intro az_off el_off
    refine ⟨?_, ?_, ?_⟩
    · by_cases hb : env.withinBounds (s.rotor_destination.1 + az_off)
          (s.rotor_destination.2 + el_off) = true
      · simp [point_at_offset, logMsg, hb]
      · simp only [Bool.not_eq_true] at hb
        simp [point_at_offset, logMsg, hb]
    · intro hb
      constructor
      · simp [point_at_offset, logMsg, hb]
      · simp [point_at_offset, logMsg, hb]
    · intro hb
      constructor
      · simp [point_at_offset, logMsg, hb]
      · simp [point_at_offset, logMsg, hb]
  · intro table id dest htrack hl
    constructor
    · intro hb
      have heq : ephemerisRefreshStep env table s = .ok
          { s with ephemeris_locations := table,
                   rotor_destination := dest,
                   rotor_cmd_location :=
                     (dest.1 + s.rotor_offsets.1, dest.2 + s.rotor_offsets.2) } := by
        simp only [ephemerisRefreshStep, logMsg]
        simp only [htrack, hl, hb, if_true]
      refine ⟨_, heq, rfl, ?_⟩
      have hb2 := (Bool.and_eq_true _ _).mp hb
      simpa using hb2.2
    · intro hb
      have heq : ephemerisRefreshStep env table s = .ok
          { s with ephemeris_locations := table,
                   ephemeris_cmd_location := none,
                   command_error_logs :=
                     s.command_error_logs ++ ["Object " ++ id ++ " moved out of motor bounds"] } := by
        simp only [ephemerisRefreshStep, logMsg]
        simp only [htrack, hl, hb]
        simp
      exact ⟨_, heq, rfl, rfl⟩

/-- Witness for the amended C1 at concrete inputs: from `trackingState` under
`envBox`, an out-of-bounds offset request leaves the commanded position and
the offsets unchanged, and pointing at the in-bounds "Sun" commits its
position and tracks it. -/
theorem C1_amended_bounds_discipline_witness :
    ((point_at_offset envBox trackingState 20 5).rotor_cmd_location =
        trackingState.rotor_cmd_location ∧
      (point_at_offset envBox trackingState 20 5).rotor_offsets =
        trackingState.rotor_offsets) ∧
    (∃ s2, point_at_object envBox trackingState "Sun" = .ok s2 ∧
      s2.rotor_cmd_location = (30, 40) ∧
      envBox.withinBounds s2.rotor_cmd_location.1 s2.rotor_cmd_location.2 = true ∧
      s2.ephemeris_cmd_location = some "Sun") := by
  constructor
  · exact ((C1_amended_bounds_discipline envBox trackingState).2.2.1 20 5).2.2
      (by show decide _ = false; norm_num [trackingState, baseState])
  · exact (((C1_amended_bounds_discipline envBox trackingState).1 "Sun" (30, 40)
      rfl).1 (by decide))

/-! ## Loop lemmas for the scan operations -/

/-- Splitting a fallible iteration sequence at an append. -/
theorem foldSteps_append (f : ℕ → DaemonState → PyResult) (l1 l2 : List ℕ) (s : DaemonState) :
    foldSteps f (l1 ++ l2) s =
      match foldSteps f l1 s with
      | .ok s2 => foldSteps f l2 s2
      | .error e => .error e := by
  induction l1 generalizing s with
  | nil => simp [foldSteps]
  | cons k ks ih =>
    simp only [List.cons_append, foldSteps]
    cases f k s with
    | ok s2 => simp [ih]
    | error e => simp

/-- Effect of one n-point-scan iteration when the object is in the table, its
position within bounds, and the grid cell's commanded position within bounds:
the destination, offsets and commanded position are committed and a 5 s dwell
recorded. -/
theorem nPointIter_eq (env : Env) (oid : String) (scan : ℕ) (st : DaemonState) (dest : ℚ × ℚ)
    (hl : List.lookup oid st.ephemeris_locations = some dest)
    (hb : env.withinBounds dest.1 dest.2 = true)
    (hcell : env.withinBounds
        (dest.1 + (nPointCell env st.beamwidth dest.2 scan).1)
        (dest.2 + (nPointCell env st.beamwidth dest.2 scan).2) = true) :
    nPointIter env oid scan st = .ok
      { st with rotor_destination := dest,
                rotor_offsets := nPointCell env st.beamwidth dest.2 scan,
                rotor_cmd_location :=
                  (dest.1 + (nPointCell env st.beamwidth dest.2 scan).1,
                   dest.2 + (nPointCell env st.beamwidth dest.2 scan).2),
                sleeps := st.sleeps ++ [5] } := by
  simp only [nPointIter, point_at_offset, sleepFor, logMsg]
  simp only [hl, hb, if_true]
  simp only [hcell, if_true]

/-- The first `n ≤ 25` iterations of the n-point scan visit the grid cells in
order: after `n` iterations the state dwelt `n` times, holds the `n-1`-st
cell's offsets and commanded position, and no other field has moved. -/
theorem nPointLoop_eq (env : Env) (oid : String) (dest : ℚ × ℚ) (s1 : DaemonState)
    (hl : List.lookup oid s1.ephemeris_locations = some dest)
    (hb : env.withinBounds dest.1 dest.2 = true) :
    ∀ n : ℕ,
      (∀ k, k < n → env.withinBounds
          (dest.1 + (nPointCell env s1.beamwidth dest.2 k).1)
          (dest.2 + (nPointCell env s1.beamwidth dest.2 k).2) = true) →
      ∃ sk, foldSteps (nPointIter env oid) (List.range n) s1 = .ok sk ∧
        sk.ephemeris_locations = s1.ephemeris_locations ∧
        sk.beamwidth = s1.beamwidth ∧
        sk.radio_queue = s1.radio_queue ∧
        sk.ephemeris_cmd_location = s1.ephemeris_cmd_location ∧
        sk.sleeps = s1.sleeps ++ List.replicate n 5 ∧
        (1 ≤ n →
          sk.rotor_destination = dest ∧
          sk.rotor_offsets = nPointCell env s1.beamwidth dest.2 (n - 1) ∧
          sk.rotor_cmd_location =
            (dest.1 + (nPointCell env s1.beamwidth dest.2 (n - 1)).1,
             dest.2 + (nPointCell env s1.beamwidth dest.2 (n - 1)).2)) := by
  intro n
  induction n with
  | zero =>
    intro _
    exact ⟨s1, rfl, rfl, rfl, rfl, rfl, by simp, by omega⟩
  | succ m ih =>
    intro hcells
    obtain ⟨sk, heq, hep, hbw, hq, hecl, hsl, hpos⟩ := ih (fun k hk => hcells k (by omega))
    have hlk : List.lookup oid sk.ephemeris_locations = some dest := by rw [hep]; exact hl
    have hc : env.withinBounds
        (dest.1 + (nPointCell env sk.beamwidth dest.2 m).1)
        (dest.2 + (nPointCell env sk.beamwidth dest.2 m).2) = true := by
      rw [hbw]; exact hcells m (by omega)
    have hstep := nPointIter_eq env oid m sk dest hlk hb hc
    have hfold : foldSteps (nPointIter env oid) (List.range (m + 1)) s1 = .ok
        { sk with rotor_destination := dest,
                  rotor_offsets := nPointCell env sk.beamwidth dest.2 m,
                  rotor_cmd_location :=
                    (dest.1 + (nPointCell env sk.beamwidth dest.2 m).1,
                     dest.2 + (nPointCell env sk.beamwidth dest.2 m).2),
                  sleeps := sk.sleeps ++ [5] } := by
      rw [List.range_succ, foldSteps_append, heq]
      simp only [foldSteps]
      rw [hstep]
    refine ⟨_, hfold, ?_, ?_, ?_, ?_, ?_, ?_⟩
    · simpa using hep
    · simpa using hbw
    · simpa using hq
    · simpa using hecl
    · simp [hsl, List.replicate_succ', List.append_assoc]
    · intro _
      refine ⟨rfl, ?_, ?_⟩
      · simpa using hbw ▸ rfl
      · simp [hbw]

/-- The scan cell at linear index `(i+2)*5 + (j+2)` is exactly the claim's
grid cell for indices `i, j ∈ {-2..2}`: elevation offset `i·beamwidth/2`,
azimuth offset `j·beamwidth/2 / cos(el + elevation offset)`. -/
theorem nPointCell_at_grid_index (i j : ℤ) (hi1 : -2 ≤ i) (hi2 : i ≤ 2)
    (hj1 : -2 ≤ j) (hj2 : j ≤ 2) (bw el : ℚ) (env : Env) :
    ((i + 2) * 5 + (j + 2)).toNat + 1 ≤ 25 ∧
    nPointCell env bw el ((i + 2) * 5 + (j + 2)).toNat =
      ((j : ℚ) * bw / 2 / env.cosDeg (el + (i : ℚ) * bw / 2), (i : ℚ) * bw / 2) := by
  interval_cases i <;> interval_cases j <;>
    refine ⟨by simp, by simp [nPointCell]; try ring_nf; try simp⟩

/-- Claim C4: for an object in the table whose position and whole 5×5 offset
grid lie within the motor bounds, `n_point_scan` dwells 5 time units in each
of exactly 25 cells (`List.replicate 25 5`), restores zero offset, resumes
tracking the object by name, and — cell by cell — after iteration
`(i+2)*5+(j+2)+1` the committed offsets and commanded position are those of
grid cell `(i, j)`, `i, j ∈ {-2..2}`, with elevation offset `i·beamwidth/2`
and azimuth offset `j·beamwidth/2 / cos(elevation + elevation offset)`. -/
theorem C4_n_point_scan_grid :
    ∀ (env : Env) (s : DaemonState) (oid : String) (dest : ℚ × ℚ),
    List.lookup oid s.ephemeris_locations = some dest →
    env.withinBounds dest.1 dest.2 = true →
    (∀ k, k < 25 →
      env.withinBounds (dest.1 + (nPointCell env s.beamwidth dest.2 k).1)
        (dest.2 + (nPointCell env s.beamwidth dest.2 k).2) = true) →
    (∃ s2, n_point_scan env s oid = .ok s2 ∧
      s2.sleeps = s.sleeps ++ List.replicate 25 5 ∧
      s2.rotor_offsets = (0, 0) ∧
      s2.ephemeris_cmd_location = some oid ∧
      s2.radio_queue = s.radio_queue ++ [("soutrack", RVal.str oid)]) ∧
    (∀ i j : ℤ, -2 ≤ i → i ≤ 2 → -2 ≤ j → j ≤ 2 →
      ∃ sk, foldSteps (nPointIter env oid)
          (List.range (((i + 2) * 5 + (j + 2)).toNat + 1)) (scanSetup s oid) = .ok sk ∧
        sk.rotor_offsets =
          ((j : ℚ) * s.beamwidth / 2 / env.cosDeg (dest.2 + (i : ℚ) * s.beamwidth / 2),
           (i : ℚ) * s.beamwidth / 2) ∧
        sk.rotor_cmd_location =
          (dest.1 + (j : ℚ) * s.beamwidth / 2 / env.cosDeg (dest.2 + (i : ℚ) * s.beamwidth / 2),
           dest.2 + (i : ℚ) * s.beamwidth / 2)) := by
  intro env s oid dest hl hb hcells
  have hl1 : List.lookup oid (scanSetup s oid).ephemeris_locations = some dest := by
    simpa [scanSetup, pushRadio] using hl
  have hcells1 : ∀ k, k < 25 → env.withinBounds
      (dest.1 + (nPointCell env (scanSetup s oid).beamwidth dest.2 k).1)
      (dest.2 + (nPointCell env (scanSetup s oid).beamwidth dest.2 k).2) = true := by
    intro k hk
    simpa [scanSetup, pushRadio] using hcells k hk
  constructor
  · obtain ⟨sk, heq, hep, hbw, hq, hecl, hsl, hpos⟩ :=
      nPointLoop_eq env oid dest (scanSetup s oid) hl1 hb 25 (fun k hk => hcells1 k hk)
    have hmain : n_point_scan env s oid = .ok
        { sk with rotor_offsets := ((0 : ℚ), (0 : ℚ)),
                  ephemeris_cmd_location := some oid } := by
      simp only [n_point_scan]
      rw [heq]
    refine ⟨_, hmain, ?_, rfl, rfl, ?_⟩
    · simpa [scanSetup, pushRadio] using hsl
    · simpa [scanSetup, pushRadio] using hq
  · intro i j hi1 hi2 hj1 hj2
    obtain ⟨hle, hcell⟩ := nPointCell_at_grid_index i j hi1 hi2 hj1 hj2 s.beamwidth dest.2 env
    obtain ⟨sk, heq, hep, hbw, hq, hecl, hsl, hpos⟩ :=
      nPointLoop_eq env oid dest (scanSetup s oid) hl1 hb
        (((i + 2) * 5 + (j + 2)).toNat + 1) (fun k hk => hcells1 k (by omega))
    obtain ⟨hdest, hoff, hcmd⟩ := hpos (by omega)
    refine ⟨sk, heq, ?_, ?_⟩
    · rw [hoff]
      simpa [scanSetup, pushRadio] using hcell
    · rw [hcmd]
      simp [scanSetup, pushRadio, hcell]

/-- Witness for C4: the full scan of the in-bounds "Sun" under the open mount,
and the visited cell for grid indices `i = 1, j = -2`. -/
theorem C4_n_point_scan_grid_witness :
    (∃ s2, n_point_scan envOpen baseState "Sun" = .ok s2 ∧
      s2.sleeps = baseState.sleeps ++ List.replicate 25 5 ∧
      s2.rotor_offsets = (0, 0) ∧
      s2.ephemeris_cmd_location = some "Sun" ∧
      s2.radio_queue = baseState.radio_queue ++ [("soutrack", RVal.str "Sun")]) ∧
    (∃ sk, foldSteps (nPointIter envOpen "Sun")
        (List.range ((((1 : ℤ) + 2) * 5 + ((-2 : ℤ) + 2)).toNat + 1))
        (scanSetup baseState "Sun") = .ok sk ∧
      sk.rotor_offsets =
        (((-2 : ℤ) : ℚ) * baseState.beamwidth / 2 /
            envOpen.cosDeg (40 + ((1 : ℤ) : ℚ) * baseState.beamwidth / 2),
         ((1 : ℤ) : ℚ) * baseState.beamwidth / 2) ∧
      sk.rotor_cmd_location =
        (30 + ((-2 : ℤ) : ℚ) * baseState.beamwidth / 2 /
            envOpen.cosDeg (40 + ((1 : ℤ) : ℚ) * baseState.beamwidth / 2),
         40 + ((1 : ℤ) : ℚ) * baseState.beamwidth / 2)) := by
  have H := C4_n_point_scan_grid envOpen baseState "Sun" (30, 40) rfl rfl
    (fun k hk => rfl)
  exact ⟨H.1, H.2 1 (-2) (by norm_num) (by norm_num) (by norm_num) (by norm_num)⟩

/-- Claim C5: for an object in the table whose position and all three sweep
positions lie within bounds, `beam_switch` performs the azimuth-only
three-leg sweep at offsets `(j-1)·beamwidth/cos(elevation)` for `j = 0, 1, 2`
with zero elevation offset, emits exactly four `beam_switch` labels on the
outbound parameter queue in the order 1, 2, 3, then the reset label 0, dwells
5 time units per leg, and restores zero offset and tracking afterwards. -/
theorem C5_beam_switch_labels :
    ∀ (env : Env) (s : DaemonState) (oid : String) (dest : ℚ × ℚ),
    List.lookup oid s.ephemeris_locations = some dest →
    env.withinBounds dest.1 dest.2 = true →
    (∀ j : ℕ, j < 3 →
      env.withinBounds (dest.1 + ((j : ℚ) - 1) * s.beamwidth / env.cosDeg dest.2)
        (dest.2 + 0) = true) →
    (∃ s2, beam_switch env s oid = .ok s2 ∧
      s2.radio_queue = s.radio_queue ++
        [("soutrack", RVal.str oid), ("beam_switch", RVal.num 1), ("beam_switch", RVal.num 2),
         ("beam_switch", RVal.num 3), ("beam_switch", RVal.num 0)] ∧
      s2.rotor_offsets = (0, 0) ∧
      s2.ephemeris_cmd_location = some oid ∧
      s2.sleeps = s.sleeps ++ [5, 5, 5] ∧
      List.filter (fun p => p.1 == "beam_switch") s2.radio_queue =
        List.filter (fun p => p.1 == "beam_switch") s.radio_queue ++
          [("beam_switch", RVal.num 1), ("beam_switch", RVal.num 2),
           ("beam_switch", RVal.num 3), ("beam_switch", RVal.num 0)]) ∧
    (∀ j : ℕ, j < 3 →
      ((List.range (j + 1)).foldl (beamLeg env dest) (scanSetup s oid)).rotor_offsets =
        (((j : ℚ) - 1) * s.beamwidth / env.cosDeg dest.2, 0) ∧
      ((List.range (j + 1)).foldl (beamLeg env dest) (scanSetup s oid)).rotor_cmd_location =
        (dest.1 + ((j : ℚ) - 1) * s.beamwidth / env.cosDeg dest.2, dest.2)) := by
  intro env s oid dest hl hb hlegs
  have h0 := hlegs 0 (by norm_num)
  have h1 := hlegs 1 (by norm_num)
  have h2 := hlegs 2 (by norm_num)
  simp only [Nat.cast_zero, Nat.cast_one, Nat.cast_ofNat] at h0 h1 h2
  norm_num at h0 h1 h2
  have hbeq : ("soutrack" == "beam_switch") = false := by decide
  constructor
  · norm_num [beam_switch, scanSetup, pushRadio, beamLeg, point_at_offset, sleepFor, logMsg,
      hl, hb, h0, h1, h2, hbeq, List.range, List.range.loop, List.foldl, List.filter]
  · intro j hj
    interval_cases j
    · constructor <;>
        norm_num [scanSetup, pushRadio, beamLeg, point_at_offset, sleepFor, logMsg,
          hb, h0, h1, h2, List.range, List.range.loop, List.foldl]
    · constructor <;>
        norm_num [scanSetup, pushRadio, beamLeg, point_at_offset, sleepFor, logMsg,
          hb, h0, h1, h2, List.range, List.range.loop, List.foldl]
    · constructor <;>
        norm_num [scanSetup, pushRadio, beamLeg, point_at_offset, sleepFor, logMsg,
          hb, h0, h1, h2, List.range, List.range.loop, List.foldl]

/-- Witness for C5: the beam switch across the in-bounds "Sun" under the open
mount, and the third leg's committed offset. -/
theorem C5_beam_switch_labels_witness :
    (∃ s2, beam_switch envOpen baseState "Sun" = .ok s2 ∧
      s2.radio_queue = baseState.radio_queue ++
        [("soutrack", RVal.str "Sun"), ("beam_switch", RVal.num 1), ("beam_switch", RVal.num 2),
         ("beam_switch", RVal.num 3), ("beam_switch", RVal.num 0)] ∧
      s2.rotor_offsets = (0, 0) ∧
      s2.ephemeris_cmd_location = some "Sun" ∧
      s2.sleeps = baseState.sleeps ++ [5, 5, 5] ∧
      List.filter (fun p => p.1 == "beam_switch") s2.radio_queue =
        List.filter (fun p => p.1 == "beam_switch") baseState.radio_queue ++
          [("beam_switch", RVal.num 1), ("beam_switch", RVal.num 2),
           ("beam_switch", RVal.num 3), ("beam_switch", RVal.num 0)]) ∧
    ((List.range (2 + 1)).foldl (beamLeg envOpen (30, 40)) (scanSetup baseState "Sun")).rotor_offsets =
      ((((2 : ℕ) : ℚ) - 1) * baseState.beamwidth / envOpen.cosDeg 40, 0) := by
  have H := C5_beam_switch_labels envOpen baseState "Sun" (30, 40) rfl rfl
    (fun j hj => rfl)
  exact ⟨H.1, (H.2 2 (by norm_num)).1⟩

/-- Counterexample to claim C2 as stated; two distinct uncaught escapes
exist.  First, `calibrate` re-opens `calibration.json` with no handler for a
missing file: when the calibration collaborator left no document behind
(`calibration_file = none`), the command raises `FileNotFoundError`.
Second, the sleep commands hand the parsed duration straight to
`time.sleep`, which raises `OverflowError` on an infinite or over-large
value — and `float("inf")` parses successfully, so the operator command
`wait inf` reaches it.  Neither class is among the loop's handlers
(`IndexError`, `ValueError`, `ConnectionRefusedError`), so in both cases the
main loop ends in `crashed` — the error escapes the `while` loop and the
main thread (hence the daemon process, all other threads being daemonic)
terminates, without running the stow epilogue. -/
theorem C2_counterexample :
    (commandStep envOpen baseState "calibrate" =
        .error (.fileNotFoundError, runState baseState "calibrate") ∧
      mainLoop envOpen true ["calibrate"] baseState =
        .crashed .fileNotFoundError
          (runState { baseState with current_queue_item := "None" } "calibrate")) ∧
    (commandStep envOpen baseState "wait inf" =
        .error (.overflowError "timestamp too large to convert to C _PyTime_t",
          runState baseState "wait inf") ∧
      mainLoop envOpen true ["wait inf"] baseState =
        .crashed (.overflowError "timestamp too large to convert to C _PyTime_t")
          (runState { baseState with current_queue_item := "None" } "wait inf")) :=
  ⟨⟨rfl, rfl⟩, rfl, rfl⟩

/-- Claim C2 as amended: a malformed numeric token, a missing argument and an
unrecognized keyword are each caught and logged and the loop continues
(first three conjuncts, on representative commands), and the only ways any
command can escape the handlers and terminate the loop are an
`OverflowError` from `time.sleep` in one of the four sleeping command forms
(a bare numeric, `wait`, `lst`, or an absolute `Y:j:H:M:S` time) given an
infinite or over-large duration, and the `calibrate` command raising
`FileNotFoundError` when no persisted calibration document exists (last
conjunct). -/
theorem C2_amended_error_containment :
    ∀ (env : Env) (s : DaemonState),
    (List.lookup "freq" s.ephemeris_locations = none →
      commandStep env s "freq abc" =
        .ok (logMsg (runState s "freq abc") "could not convert string to float: abc")) ∧
    (List.lookup "azel" s.ephemeris_locations = none →
      commandStep env s "azel 45" =
        .ok (logMsg (runState s "azel 45") "list index out of range")) ∧
    (List.lookup "foo" s.ephemeris_locations = none →
      commandStep env s "foo bar" =
        .ok (logMsg (runState s "foo bar") ("Command Not Identified " ++ "foo bar"))) ∧
    (∀ (c : String) (e : PyErr) (sp : DaemonState),
      commandStep env s c = .error (e, sp) →
      ((∃ m, e = .overflowError m) ∧
        (isNumericStr (cmdNameOf c) = true ∨ cmdNameOf c = "wait" ∨
         (splitStr ':' (cmdNameOf c)).headD "" = "lst" ∨
         (splitStr ':' (cmdNameOf c)).length = 5)) ∨
      (e = .fileNotFoundError ∧ env.calibration_file = none ∧ cmdNameOf c = "calibrate")) := by
  intro env s
  refine ⟨?_, ?_, ?_, ?_⟩
  · intro hfreq
    have hA : commandStepRaw env s "freq abc" =
        .error (.valueError "could not convert string to float: abc", runState s "freq abc") := by
      simp only [commandStepRaw]
      simp [commandStepDispatch, runState, logMsg, splitStr, splitCharsOn, lowerStr, lowerChar,
        frontChar, trimStr, dropStr, getArg, parseFloatE, parsePyFloat, parseMantissa,
        parseSignedNat, stripUnderscores, stripUnderscoresAux, parseNatStr, digitsToNat,
        isNumericStr, hfreq]
      try decide
    simp only [commandStep, hA]
  · intro hazel
    have hB : commandStepRaw env s "azel 45" =
        .error (.indexError "list index out of range", runState s "azel 45") := by
      simp only [commandStepRaw]
      simp [commandStepDispatch, runState, logMsg, splitStr, splitCharsOn, lowerStr, lowerChar,
        frontChar, trimStr, dropStr, getArg, parseFloatE, parsePyFloat, parseMantissa,
        parseSignedNat, stripUnderscores, stripUnderscoresAux, parseNatStr, digitsToNat,
        isNumericStr, hazel]
      try decide
    simp only [commandStep, hB]
  · intro hfoo
    have hC : commandStepRaw env s "foo bar" =
        .ok (logMsg (runState s "foo bar") ("Command Not Identified " ++ "foo bar")) := by
      simp only [commandStepRaw]
      simp [commandStepDispatch, runState, logMsg, splitStr, splitCharsOn, lowerStr, lowerChar,
        frontChar, trimStr, dropStr, getArg, parseFloatE, parsePyFloat, parseMantissa,
        parseSignedNat, stripUnderscores, stripUnderscoresAux, parseNatStr, digitsToNat,
        isNumericStr, hfoo]
      try decide
    simp only [commandStep, hC]
  · intro c e sp h
    simp only [commandStep] at h
    cases hr : commandStepRaw env s c with
    | ok s2 =>
      simp only [hr] at h
      simp at h
    | error p =>
      obtain ⟨e2, sp2⟩ := p
      have hd := commandStepDispatch_error env (runState s c) c e2 sp2
        (by simpa [commandStepRaw] using hr)
      simp only [hr] at h
      rcases hd with ⟨m, hm⟩ | ⟨m, hm⟩ | ⟨⟨m, hm⟩, hbr⟩ | ⟨hm, hfile, hname⟩
      · subst hm
        simp at h
      · subst hm
        simp at h
      · subst hm
        simp only [Except.error.injEq, Prod.mk.injEq] at h
        exact Or.inl ⟨⟨m, h.1.symm⟩, hbr⟩
      · subst hm
        simp only [Except.error.injEq, Prod.mk.injEq] at h
        exact Or.inr ⟨h.1.symm, hfile, hname⟩

/-- Witness for the amended C2 at concrete inputs: the three caught-and-logged
cases from `baseState`, the uncaught `FileNotFoundError` realized at
`calibrate` with no calibration document, and the uncaught `OverflowError`
realized at `wait inf`. -/
theorem C2_amended_error_containment_witness :
    commandStep envOpen baseState "freq abc" =
      .ok (logMsg (runState baseState "freq abc") "could not convert string to float: abc") ∧
    commandStep envOpen baseState "azel 45" =
      .ok (logMsg (runState baseState "azel 45") "list index out of range") ∧
    commandStep envOpen baseState "foo bar" =
      .ok (logMsg (runState baseState "foo bar") ("Command Not Identified " ++ "foo bar")) ∧
    (PyErr.fileNotFoundError = PyErr.fileNotFoundError ∧ envOpen.calibration_file = none ∧
      cmdNameOf "calibrate" = "calibrate") ∧
    ((∃ m, (PyErr.overflowError "timestamp too large to convert to C _PyTime_t") =
        PyErr.overflowError m) ∧ cmdNameOf "wait inf" = "wait") := by
  have H := C2_amended_error_containment envOpen baseState
  refine ⟨H.1 rfl, H.2.1 rfl, H.2.2.1 rfl, ?_, ?_⟩
  · rcases H.2.2.2 "calibrate" .fileNotFoundError (runState baseState "calibrate") rfl with
      ⟨⟨m, hm⟩, _⟩ | hok
    · exact absurd hm (by simp)
    · exact hok
  · rcases H.2.2.2 "wait inf" (.overflowError "timestamp too large to convert to C _PyTime_t")
      (runState baseState "wait inf") rfl with ⟨⟨m, hm⟩, hbr⟩ | ⟨hm, _⟩
    · refine ⟨⟨m, hm⟩, ?_⟩
      rcases hbr with hb | hb | hb | hb
      · exact absurd hb (by decide)
      · exact hb
      · exact absurd hb (by decide)
      · exact absurd hb (by decide)
    · exact absurd hm (by simp)

end SRT
